import Mathlib

/-!
Verification development for the r2r-backend repository.

The Python sources are shallowly embedded: JSON values become the inductive
type `JVal`, floats become real numbers (`ℝ`) where transcendental arithmetic
occurs and rationals (`ℚ`) where values only flow structurally, Python
exceptions become `Except`, and the database tables touched by the CLI
scripts and the migration become explicit record lists.  Each definition
mirrors one function of the source tree (services.py, routers/routes.py,
models.py, scripts/add_prior_config.py,
scripts/transfer_priors_to_learned_params.py,
src/r2r_backend/db/models.py and the alembic migration 246677e8a89f).
-/

namespace R2R

/-- JSON values as produced by `response.json()` and consumed throughout
services.py.  JSON numerals are modelled as rationals. -/
inductive JVal where
  | null
  | bool (b : Bool)
  | num (q : ℚ)
  | str (s : String)
  | arr (xs : List JVal)
  | obj (kvs : List (String × JVal))

/-- Python dict lookup `d.get(k)` on a JSON object (keys are unique in a
Python dict; the first binding wins). -/
def lookupKV (kvs : List (String × JVal)) (k : String) : Option JVal :=
  (kvs.find? (fun kv => kv.1 == k)).map (·.2)

/-- Python truthiness of a JSON value, as used by `if data.get("paths"):`,
`if not detail_list:` and similar tests in services.py. -/
def truthy : JVal → Bool
  | .null => false
  | .bool b => b
  | .num q => q != 0
  | .str s => s != ""
  | .arr xs => !xs.isEmpty
  | .obj kvs => !kvs.isEmpty

/-! Wire types from models.py (pydantic models). -/

/-- models.py `ElevationPoint`. -/
structure ElevationPoint where
  distance : ℝ
  elevation : ℝ
  coordinate_index : ℕ

/-- models.py `RouteSegment` (the attribute map keeps the raw JSON values). -/
structure RouteSegment where
  start_index : ℤ
  end_index : ℤ
  start_distance : ℝ
  end_distance : ℝ
  attributes : List (String × JVal)

/-- models.py `RouteMetrics`. -/
structure RouteMetrics where
  distance_meters : ℚ
  time_ms : ℚ

/-- models.py `RouteGeometry`; coordinates are [lon, lat] pairs. -/
structure RouteGeometry where
  coordinates : List (ℚ × ℚ)
  elevation_profile : Option (List ElevationPoint) := none
  coordinate_distances : Option (List ℝ) := none

/-- models.py `RouteResponse`. -/
structure RouteResponse where
  geometry : RouteGeometry
  metrics : RouteMetrics
  profile : String
  segments : Option (List RouteSegment) := none
  success : Bool := true
  error : Option String := none

/-! Haversine distances (services.py lines 25-50). -/

/-- Python `math.radians`. -/
noncomputable def radians (x : ℝ) : ℝ := x * (Real.pi / 180)

/-- Python `math.atan2 y x`: the four-quadrant arctangent with the C
convention (`atan2 0 0 = 0`). -/
noncomputable def atan2 (y x : ℝ) : ℝ :=
  if 0 < x then Real.arctan (y / x)
  else if x < 0 then
    (if 0 ≤ y then Real.arctan (y / x) + Real.pi else Real.arctan (y / x) - Real.pi)
  else
    (if 0 < y then Real.pi / 2 else if y < 0 then -(Real.pi / 2) else 0)

/-- services.py `haversine_distance`: distance in meters between two
(lat, lon) points, Earth radius 6371000 m. -/
noncomputable def haversine_distance (lat1 lon1 lat2 lon2 : ℝ) : ℝ :=
  let R : ℝ := 6371000
  let lat1_rad := radians lat1
  let lat2_rad := radians lat2
  let delta_lat := radians (lat2 - lat1)
  let delta_lon := radians (lon2 - lon1)
  let a := Real.sin (delta_lat / 2) ^ 2 +
    Real.cos lat1_rad * Real.cos lat2_rad * Real.sin (delta_lon / 2) ^ 2
  let c := 2 * atan2 (Real.sqrt a) (Real.sqrt (1 - a))
  R * c

/-- consecutive pairs (l[i], l[i+1]) of a list, used to phrase loops of the
form `for i in range(1, len(l))` over adjacent elements. -/
def consecPairs {α : Type} (l : List α) : List (α × α) := l.zip l.tail

/-- running accumulation of the loop inside
`calculate_cumulative_distances`: starting from the running total `acc`,
emit one cumulative value per further coordinate.  Coordinates are
[lon, lat] pairs, and the source calls
`haversine_distance(prev[1], prev[0], cur[1], cur[0])`. -/
noncomputable def cumDistsFrom (acc : ℝ) : List (ℝ × ℝ) → List ℝ
  | c1 :: c2 :: rest =>
    let d := acc + haversine_distance c1.2 c1.1 c2.2 c2.1
    d :: cumDistsFrom d (c2 :: rest)
  | _ => []

/-- services.py `calculate_cumulative_distances`: the list starts as `[0.0]`
and each further coordinate appends the previous total plus the haversine
distance from its predecessor. -/
noncomputable def calculate_cumulative_distances (coordinates : List (ℝ × ℝ)) : List ℝ :=
  0 :: cumDistsFrom 0 coordinates

/-- sum of the pairwise haversine distances of consecutive coordinates. -/
noncomputable def pairwiseHaversineSum (l : List (ℝ × ℝ)) : ℝ :=
  ((consecPairs l).map (fun p => haversine_distance p.1.2 p.1.1 p.2.2 p.2.1)).sum

theorem atan2_nonneg {y x : ℝ} (hy : 0 ≤ y) (hx : 0 ≤ x) : 0 ≤ atan2 y x := by
  unfold atan2
  split
  · rename_i hpos
    have h0 : (0 : ℝ) ≤ y / x := div_nonneg hy hx
    have := Real.arctan_strictMono.monotone h0
    simpa [Real.arctan_zero] using this
  · split
    · rename_i hneg
      exact absurd (lt_of_le_of_lt hx hneg) (lt_irrefl 0)
    · split
      · positivity
      · split
        · rename_i hylt
          exact absurd (lt_of_le_of_lt hy hylt) (lt_irrefl 0)
        · exact le_refl 0

theorem haversine_distance_nonneg (lat1 lon1 lat2 lon2 : ℝ) :
    0 ≤ haversine_distance lat1 lon1 lat2 lon2 := by
  unfold haversine_distance
  have h := atan2_nonneg (Real.sqrt_nonneg
      (Real.sin (radians (lat2 - lat1) / 2) ^ 2 +
        Real.cos (radians lat1) * Real.cos (radians lat2) *
          Real.sin (radians (lon2 - lon1) / 2) ^ 2))
    (Real.sqrt_nonneg (1 - (Real.sin (radians (lat2 - lat1) / 2) ^ 2 +
        Real.cos (radians lat1) * Real.cos (radians lat2) *
          Real.sin (radians (lon2 - lon1) / 2) ^ 2)))
  have h2 : (0 : ℝ) ≤ 2 := by norm_num
  have h6 : (0 : ℝ) ≤ 6371000 := by norm_num
  exact mul_nonneg h6 (mul_nonneg h2 h)

theorem cumDistsFrom_length (l : List (ℝ × ℝ)) : ∀ acc, (cumDistsFrom acc l).length = l.length - 1 := by
  induction l with
  | nil => intro acc; simp [cumDistsFrom]
  | cons c1 tl ih =>
    intro acc
    cases tl with
    | nil => simp [cumDistsFrom]
    | cons c2 rest =>
      simp only [cumDistsFrom, List.length_cons]
      rw [ih]
      simp

theorem cumDistsFrom_chain (l : List (ℝ × ℝ)) :
    ∀ acc, List.Chain' (· ≤ ·) (acc :: cumDistsFrom acc l) := by
  induction l with
  | nil => intro acc; simp [cumDistsFrom]
  | cons c1 tl ih =>
    intro acc
    cases tl with
    | nil => simp [cumDistsFrom]
    | cons c2 rest =>
      simp only [cumDistsFrom]
      refine List.chain'_cons.mpr ⟨?_, ih _⟩
      have := haversine_distance_nonneg c1.2 c1.1 c2.2 c2.1
      linarith

theorem cumDistsFrom_getLast? (l : List (ℝ × ℝ)) :
    ∀ acc, (acc :: cumDistsFrom acc l).getLast? = some (acc + pairwiseHaversineSum l) := by
  induction l with
  | nil => intro acc; simp [cumDistsFrom, pairwiseHaversineSum, consecPairs]
  | cons c1 tl ih =>
    intro acc
    cases tl with
    | nil => simp [cumDistsFrom, pairwiseHaversineSum, consecPairs]
    | cons c2 rest =>
      simp only [cumDistsFrom, List.getLast?_cons_cons]
      rw [show ((acc + haversine_distance c1.2 c1.1 c2.2 c2.1) :: cumDistsFrom (acc + haversine_distance c1.2 c1.1 c2.2 c2.1) (c2 :: rest)).getLast?
          = some ((acc + haversine_distance c1.2 c1.1 c2.2 c2.1) + pairwiseHaversineSum (c2 :: rest)) from ih _]
      have : pairwiseHaversineSum (c1 :: c2 :: rest)
      = haversine_distance c1.2 c1.1 c2.2 c2.1 + pairwiseHaversineSum (c2 :: rest) := by
        simp [pairwiseHaversineSum, consecPairs]
      rw [this]
      ring_nf

/-- C4: for every coordinate sequence of length n ≥ 1,
`calculate_cumulative_distances` returns a sequence of length exactly n whose
first entry is 0.0, which is non-decreasing, and whose last entry equals the
sum over consecutive coordinate pairs of the haversine distance (Earth radius
6371000 m, `a`/`c`/`R * c` formula embedded in `haversine_distance`). -/
theorem calculate_cumulative_distances_spec (coords : List (ℝ × ℝ)) (h : 1 ≤ coords.length) :
    (calculate_cumulative_distances coords).length = coords.length ∧
    (calculate_cumulative_distances coords).head? = some 0 ∧
    List.Chain' (· ≤ ·) (calculate_cumulative_distances coords) ∧
    (calculate_cumulative_distances coords).getLast? = some (pairwiseHaversineSum coords) := by
  refine ⟨?_, ?_, ?_, ?_⟩
  · simp only [calculate_cumulative_distances, List.length_cons]
    rw [cumDistsFrom_length]
    omega
  · rfl
  · exact cumDistsFrom_chain coords 0
  · have := cumDistsFrom_getLast? coords 0
    simpa [calculate_cumulative_distances] using this

/-- witness for C4 at the one-point coordinate list [(0, 0)]. -/
theorem calculate_cumulative_distances_spec_witness :
    1 ≤ ([((0 : ℝ), (0 : ℝ))] : List (ℝ × ℝ)).length ∧
    (calculate_cumulative_distances [((0 : ℝ), (0 : ℝ))]).length = 1 := by
  refine ⟨by simp, ?_⟩
  have h := calculate_cumulative_distances_spec [((0 : ℝ), (0 : ℝ))] (by simp)
  simpa using h.1

/-! Detail-segment merge (services.py lines 79-175). -/

/-- one GraphHopper path-detail triple [start, end, value] with the end index
exclusive. -/
abbrev DetailTriple := ℤ × ℤ × JVal

/-- the parsed `path["details"]` map: detail name to triple list, in dict
insertion order. -/
abbrev DetailsData := List (String × List DetailTriple)

/-- index clamping `max(0, min(i, n_coords - 1))` used by
`merge_detail_segments` for every triple bound. -/
def clampIdx (n a : ℤ) : ℤ := max 0 (min a (n - 1))

/-- all clamped triple bounds collected from every detail list (the loop
filling the `cuts` set). -/
def detailCutPoints (n : ℤ) (details_data : DetailsData) : List ℤ :=
  details_data.flatMap (fun d => d.2.flatMap (fun t => [clampIdx n t.1, clampIdx n t.2.1]))

/-- `sorted(cuts)` where `cuts` is the Python set `{0, n - 1}` plus every
clamped triple bound: distinct values in increasing order. -/
def sorted_cuts (n : ℤ) (details_data : DetailsData) : List ℤ :=
  ((0 :: (n - 1) :: detailCutPoints n details_data).dedup).insertionSort (· ≤ ·)

/-- Python membership test `v in (None, "", "missing", "null", "undefined")`
performed by `value_for_segment` before returning a value. -/
def isMissingDetailValue : JVal → Bool
  | .null => true
  | .str s => s == "" || s == "missing" || s == "null" || s == "undefined"
  | _ => false

/-- coverage test of `value_for_segment`: the clamped triple interval [a, b)
fully covers the atomic range [s, e), i.e. `s >= a and e <= b`. -/
def coversSegment (n : ℤ) (t : DetailTriple) (s e : ℤ) : Bool :=
  decide (clampIdx n t.1 ≤ s) && decide (e ≤ clampIdx n t.2.1)

/-- services.py `value_for_segment` (closure inside `merge_detail_segments`):
return the value of the first triple covering [s, e), normalizing missing
markers to the string "unknown"; "unknown" when nothing covers. -/
def value_for_segment (n : ℤ) (detail_list : List DetailTriple) (s e : ℤ) : JVal :=
  match detail_list with
  | [] => .str "unknown"
  | t :: rest =>
    if coversSegment n t s e then
      (if isMissingDetailValue t.2.2 then .str "unknown" else t.2.2)
    else value_for_segment n rest s e

/-- services.py `merge_detail_segments`: cut the index range at every detail
boundary and emit one `RouteSegment` per atomic range. -/
noncomputable def merge_detail_segments (coordinates : List (ℚ × ℚ)) (details_data : DetailsData)
    (coordinate_distances : List ℝ) : List RouteSegment :=
  let n : ℤ := (coordinates.length : ℤ)
  if coordinates.length < 2 then []
  else
    let sc := sorted_cuts n details_data
    if sc.length < 2 then []
    else
      let raw := (consecPairs sc).filter (fun p => decide (p.1 < p.2))
      if raw.isEmpty then []
      else
        raw.map (fun p =>
          { start_index := p.1
            end_index := p.2
            start_distance := coordinate_distances.getD p.1.toNat 0
            end_distance := coordinate_distances.getD p.2.toNat 0
            attributes := details_data.map (fun d => (d.1, value_for_segment n d.2 p.1 p.2)) })

/-! Helper lemmas about sorted cut lists and consecutive pairs. -/

theorem sorted_cuts_sorted (n : ℤ) (dd : DetailsData) :
    List.Sorted (· ≤ ·) (sorted_cuts n dd) :=
  List.sorted_insertionSort _ _

theorem sorted_cuts_nodup (n : ℤ) (dd : DetailsData) : (sorted_cuts n dd).Nodup :=
  ((List.perm_insertionSort _ _).nodup_iff).mpr (List.nodup_dedup _)

theorem mem_sorted_cuts (n : ℤ) (dd : DetailsData) (x : ℤ) :
    x ∈ sorted_cuts n dd ↔ x = 0 ∨ x = n - 1 ∨ x ∈ detailCutPoints n dd := by
  unfold sorted_cuts
  rw [(List.perm_insertionSort _ _).mem_iff, List.mem_dedup]
  simp

theorem clampIdx_nonneg (n a : ℤ) : 0 ≤ clampIdx n a := le_max_left _ _

theorem clampIdx_le (n a : ℤ) (hn : 0 ≤ n - 1) : clampIdx n a ≤ n - 1 :=
  max_le hn (min_le_right _ _)

theorem sorted_cuts_bounds (n : ℤ) (dd : DetailsData) (hn : 0 ≤ n - 1) :
    ∀ x ∈ sorted_cuts n dd, 0 ≤ x ∧ x ≤ n - 1 := by
  intro x hx
  rcases (mem_sorted_cuts n dd x).mp hx with h0 | h1 | hc
  · subst h0; exact ⟨le_refl 0, hn⟩
  · subst h1; exact ⟨hn, le_refl _⟩
  · unfold detailCutPoints at hc
    rcases List.mem_flatMap.mp hc with ⟨d, _, hd⟩
    rcases List.mem_flatMap.mp hd with ⟨t, _, ht⟩
    simp only [List.mem_cons, List.mem_singleton] at ht
    rcases ht with h | h | h
    · subst h; exact ⟨clampIdx_nonneg n t.1, clampIdx_le n t.1 hn⟩
    · subst h; exact ⟨clampIdx_nonneg n t.2.1, clampIdx_le n t.2.1 hn⟩
    · cases h

theorem zero_mem_sorted_cuts (n : ℤ) (dd : DetailsData) : (0 : ℤ) ∈ sorted_cuts n dd :=
  (mem_sorted_cuts n dd 0).mpr (Or.inl rfl)

theorem last_mem_sorted_cuts (n : ℤ) (dd : DetailsData) : n - 1 ∈ sorted_cuts n dd :=
  (mem_sorted_cuts n dd (n - 1)).mpr (Or.inr (Or.inl rfl))

theorem sorted_cuts_two_le_length (n : ℤ) (dd : DetailsData) (hn : 2 ≤ n) :
    2 ≤ (sorted_cuts n dd).length := by
  have h0 := zero_mem_sorted_cuts n dd
  have h1 := last_mem_sorted_cuts n dd
  have hne : (0 : ℤ) ≠ n - 1 := by omega
  match hsc : sorted_cuts n dd with
  | [] => rw [hsc] at h0; cases h0
  | [a] =>
    rw [hsc] at h0 h1
    simp only [List.mem_singleton] at h0 h1
    exact absurd (h0.trans h1.symm) hne
  | a :: b :: t => simp

theorem sorted_cuts_pairwise_lt (n : ℤ) (dd : DetailsData) :
    List.Pairwise (· < ·) (sorted_cuts n dd) := by
  have hs : List.Pairwise (· ≤ ·) (sorted_cuts n dd) := sorted_cuts_sorted n dd
  have hn : List.Pairwise (· ≠ ·) (sorted_cuts n dd) := sorted_cuts_nodup n dd
  exact (hs.and hn).imp (fun h => lt_of_le_of_ne h.1 h.2)

theorem consecPairs_rel {α : Type} {R : α → α → Prop} :
    ∀ l : List α, List.Chain' R l → ∀ p ∈ consecPairs l, R p.1 p.2 := by
  intro l
  induction l with
  | nil => intro _ p hp; simp [consecPairs] at hp
  | cons a tl ih =>
    intro hch p hp
    cases tl with
    | nil => simp [consecPairs] at hp
    | cons b t =>
      have hcp : consecPairs (a :: b :: t) = (a, b) :: consecPairs (b :: t) := rfl
      rw [hcp] at hp
      rcases List.mem_cons.mp hp with h | h
      · subst h; exact (List.chain'_cons.mp hch).1
      · exact ih (List.chain'_cons.mp hch).2 p h

theorem consecPairs_mem {α : Type} (l : List α) (p : α × α) (hp : p ∈ consecPairs l) :
    p.1 ∈ l ∧ p.2 ∈ l := by
  unfold consecPairs at hp
  have h : p.1 ∈ l ∧ p.2 ∈ l.tail := by
    rcases p with ⟨x, y⟩
    exact List.of_mem_zip hp
  exact ⟨h.1, List.mem_of_mem_tail h.2⟩

theorem consecPairs_chain_link {α : Type} :
    ∀ l : List α, List.Chain' (fun p q : α × α => p.2 = q.1) (consecPairs l) := by
  intro l
  induction l with
  | nil => simp [consecPairs]
  | cons a tl ih =>
    cases tl with
    | nil => simp [consecPairs]
    | cons b t =>
      have hcp : consecPairs (a :: b :: t) = (a, b) :: consecPairs (b :: t) := rfl
      rw [hcp]
      refine List.chain'_cons'.mpr ⟨?_, ih⟩
      intro q hq
      cases t with
      | nil => simp [consecPairs] at hq
      | cons c t' =>
        have : consecPairs (b :: c :: t') = (b, c) :: consecPairs (c :: t') := rfl
        rw [this] at hq
        simp only [List.head?_cons, Option.mem_def, Option.some.injEq] at hq
        subst hq
        rfl

theorem consecPairs_getLast?_snd {α : Type} :
    ∀ (l : List α) (a : α), l ≠ [] →
      (consecPairs (a :: l)).getLast?.map Prod.snd = l.getLast? := by
  intro l
  induction l with
  | nil => intro a h; cases h rfl
  | cons b t ih =>
    intro a _
    have hcp : consecPairs (a :: b :: t) = (a, b) :: consecPairs (b :: t) := rfl
    rw [hcp]
    cases t with
    | nil => simp [consecPairs]
    | cons c t' =>
      have ht : (c :: t' : List α) ≠ [] := by simp
      have h2 : consecPairs (b :: c :: t') = (b, c) :: consecPairs (c :: t') := rfl
      rw [h2, List.getLast?_cons_cons, ← h2, ih b ht, List.getLast?_cons_cons]

theorem sorted_head?_of_min {l : List ℤ} (hl : List.Sorted (· ≤ ·) l) {x : ℤ}
    (hx : x ∈ l) (hmin : ∀ y ∈ l, x ≤ y) : l.head? = some x := by
  cases l with
  | nil => cases hx
  | cons a t =>
    have hax : x ≤ a := hmin a (List.mem_cons_self a t)
    rcases List.mem_cons.mp hx with h | h
    · rw [h]; rfl
    · have : a ≤ x := (List.sorted_cons.mp hl).1 x h
      rw [List.head?_cons, le_antisymm this hax]

theorem sorted_getLast?_of_max :
    ∀ {l : List ℤ}, List.Sorted (· ≤ ·) l → ∀ {x : ℤ}, x ∈ l → (∀ y ∈ l, y ≤ x) →
      l.getLast? = some x := by
  intro l
  induction l with
  | nil => intro _ x hx; cases hx
  | cons a t ih =>
    intro hl x hx hmax
    cases t with
    | nil =>
      simp only [List.mem_singleton] at hx
      rw [hx]
      rfl
    | cons b t' =>
      rw [List.getLast?_cons_cons]
      have hlt : List.Sorted (· ≤ ·) (b :: t') := (List.sorted_cons.mp hl).2
      have hxm : x ∈ b :: t' := by
        rcases List.mem_cons.mp hx with h | h
        · subst h
          have hba : b ≤ x := hmax b (List.mem_cons_of_mem _ (List.mem_cons_self b t'))
          have hab : x ≤ b := (List.sorted_cons.mp hl).1 b (List.mem_cons_self b t')
          rw [le_antisymm hab hba]
          exact List.mem_cons_self b t'
        · exact h
      exact ih hlt hxm (fun y hy => hmax y (List.mem_cons_of_mem _ hy))

/-- cumulative distances computed at the services.py call site: the frontend
[lon, lat] pairs are fed to `calculate_cumulative_distances`, reading each
pair as real numbers. -/
noncomputable def coordinateDistancesOf (coords : List (ℚ × ℚ)) : List ℝ :=
  calculate_cumulative_distances (coords.map (fun c => ((c.1 : ℝ), (c.2 : ℝ))))

theorem merge_detail_segments_eq (coords : List (ℚ × ℚ)) (dd : DetailsData) (dists : List ℝ)
    (h2 : 2 ≤ coords.length) :
    merge_detail_segments coords dd dists =
      (consecPairs (sorted_cuts (coords.length : ℤ) dd)).map (fun p =>
        { start_index := p.1
          end_index := p.2
          start_distance := dists.getD p.1.toNat 0
          end_distance := dists.getD p.2.toNat 0
          attributes := dd.map (fun d => (d.1, value_for_segment (coords.length : ℤ) d.2 p.1 p.2)) }) := by
  have hn2 : (2 : ℤ) ≤ (coords.length : ℤ) := by exact_mod_cast h2
  have hnot : ¬ coords.length < 2 := by omega
  have hfil : (consecPairs (sorted_cuts (coords.length : ℤ) dd)).filter (fun p => decide (p.1 < p.2))
      = consecPairs (sorted_cuts (coords.length : ℤ) dd) := by
    apply List.filter_eq_self.mpr
    intro p hp
    exact decide_eq_true (consecPairs_rel _ ((sorted_cuts_pairwise_lt _ dd).chain') p hp)
  have hlen := sorted_cuts_two_le_length (coords.length : ℤ) dd hn2
  have hnot2 : ¬ (sorted_cuts (coords.length : ℤ) dd).length < 2 := by omega
  obtain ⟨c0, c1, rest, hshape⟩ :
      ∃ c0 c1 rest, sorted_cuts (coords.length : ℤ) dd = c0 :: c1 :: rest := by
    match hsc : sorted_cuts (coords.length : ℤ) dd with
    | [] => rw [hsc] at hlen; simp at hlen
    | [a] => rw [hsc] at hlen; simp at hlen
    | a :: b :: t => exact ⟨a, b, t, rfl⟩
  have hne : (consecPairs (sorted_cuts (coords.length : ℤ) dd)).isEmpty = false := by
    rw [hshape]
    rfl
  simp only [merge_detail_segments]
  rw [if_neg hnot, if_neg hnot2, hfil, hne]
  simp

/-- C1: for every coordinate list of length n ≥ 2 and every details map
(including the empty map), the segments returned by `merge_detail_segments`
partition the index range [0, n-1] with no gaps or overlaps: segments are in
increasing order, the first start_index is 0, the last end_index is n-1,
each end_index equals the next start_index, and the distances of every
segment are the cumulative-distance entries at its indices. -/
theorem merge_detail_segments_partitions (coords : List (ℚ × ℚ)) (dd : DetailsData)
    (h2 : 2 ≤ coords.length) :
    merge_detail_segments coords dd (coordinateDistancesOf coords) ≠ [] ∧
    ((merge_detail_segments coords dd (coordinateDistancesOf coords)).head?.map
      (·.start_index)) = some 0 ∧
    ((merge_detail_segments coords dd (coordinateDistancesOf coords)).getLast?.map
      (·.end_index)) = some ((coords.length : ℤ) - 1) ∧
    List.Chain' (fun a b => a.end_index = b.start_index)
      (merge_detail_segments coords dd (coordinateDistancesOf coords)) ∧
    ∀ sg ∈ merge_detail_segments coords dd (coordinateDistancesOf coords),
      sg.start_index < sg.end_index ∧ 0 ≤ sg.start_index ∧
      sg.end_index ≤ (coords.length : ℤ) - 1 ∧
      sg.start_distance = (coordinateDistancesOf coords).getD sg.start_index.toNat 0 ∧
      sg.end_distance = (coordinateDistancesOf coords).getD sg.end_index.toNat 0 := by
  rw [merge_detail_segments_eq coords dd (coordinateDistancesOf coords) h2]
  have hn2 : (2 : ℤ) ≤ (coords.length : ℤ) := by exact_mod_cast h2
  have hn0 : (0 : ℤ) ≤ (coords.length : ℤ) - 1 := by omega
  have hsorted := sorted_cuts_sorted (coords.length : ℤ) dd
  have hbounds := sorted_cuts_bounds (coords.length : ℤ) dd hn0
  have hlen := sorted_cuts_two_le_length (coords.length : ℤ) dd hn2
  have hhead : (sorted_cuts (coords.length : ℤ) dd).head? = some 0 :=
    sorted_head?_of_min hsorted (zero_mem_sorted_cuts _ dd) (fun y hy => (hbounds y hy).1)
  have hlast : (sorted_cuts (coords.length : ℤ) dd).getLast? = some ((coords.length : ℤ) - 1) :=
    sorted_getLast?_of_max hsorted (last_mem_sorted_cuts _ dd) (fun y hy => (hbounds y hy).2)
  obtain ⟨c0, c1, rest, hshape⟩ :
      ∃ c0 c1 rest, sorted_cuts (coords.length : ℤ) dd = c0 :: c1 :: rest := by
    match hsc : sorted_cuts (coords.length : ℤ) dd with
    | [] => rw [hsc] at hlen; simp at hlen
    | [a] => rw [hsc] at hlen; simp at hlen
    | a :: b :: t => exact ⟨a, b, t, rfl⟩
  refine ⟨?_, ?_, ?_, ?_, ?_⟩
  · rw [hshape]
    simp [consecPairs]
  · rw [List.head?_map, hshape]
    have hc0 : c0 = 0 := by
      rw [hshape] at hhead
      simpa using hhead
    have : consecPairs (c0 :: c1 :: rest) = (c0, c1) :: consecPairs (c1 :: rest) := rfl
    rw [this]
    simp [hc0]
  · rw [List.getLast?_map]
    have hsnd := consecPairs_getLast?_snd (c1 :: rest) c0 (by simp)
    rw [hshape] at hlast
    rw [List.getLast?_cons_cons] at hlast
    rw [hlast] at hsnd
    rw [hshape]
    cases hgl : (consecPairs (c0 :: c1 :: rest)).getLast? with
    | none => rw [hgl] at hsnd; simp at hsnd
    | some p =>
      rw [hgl] at hsnd
      simp only [Option.map_some'] at hsnd ⊢
      simpa using hsnd
  · apply List.chain'_map_of_chain' _ ?_ (consecPairs_chain_link (sorted_cuts (coords.length : ℤ) dd))
    intro p q hpq
    simpa using hpq
  · intro sg hsg
    rcases List.mem_map.mp hsg with ⟨p, hp, hfp⟩
    have hmem := consecPairs_mem _ p hp
    have hlt : p.1 < p.2 :=
      consecPairs_rel _ ((sorted_cuts_pairwise_lt _ dd).chain') p hp
    have hb1 := hbounds p.1 hmem.1
    have hb2 := hbounds p.2 hmem.2
    rw [← hfp]
    exact ⟨hlt, hb1.1, hb2.2, rfl, rfl⟩

/-- witness for C1 at the two-point coordinate list and the empty details map. -/
theorem merge_detail_segments_partitions_witness :
    2 ≤ ([((0 : ℚ), (0 : ℚ)), ((1 : ℚ), (0 : ℚ))] : List (ℚ × ℚ)).length ∧
    merge_detail_segments [((0 : ℚ), (0 : ℚ)), ((1 : ℚ), (0 : ℚ))] []
      (coordinateDistancesOf [((0 : ℚ), (0 : ℚ)), ((1 : ℚ), (0 : ℚ))]) ≠ [] :=
  ⟨by simp,
    (merge_detail_segments_partitions [((0 : ℚ), (0 : ℚ)), ((1 : ℚ), (0 : ℚ))] []
      (by simp)).1⟩

theorem value_for_segment_eq_find (n : ℤ) (dl : List DetailTriple) (s e : ℤ) :
    value_for_segment n dl s e =
      match dl.find? (fun t => coversSegment n t s e) with
      | none => .str "unknown"
      | some t => if isMissingDetailValue t.2.2 then .str "unknown" else t.2.2 := by
  induction dl with
  | nil => rfl
  | cons t rest ih =>
    unfold value_for_segment
    rw [List.find?_cons]
    by_cases h : coversSegment n t s e
    · simp [h]
    · simp [h, ih]

/-- C5 (amended): in the detail-segment merge, the first covering triple in
list order decides the value; if its value is JSON null (a Python None, i.e.
an absent value), the empty string, "missing", "null" or "undefined", the
assigned value is the sentinel "unknown", and if no triple covers the atomic
range the value is likewise "unknown". -/
theorem value_for_segment_unknown_cases (n : ℤ) (dl : List DetailTriple) (s e : ℤ) :
    ((∀ t ∈ dl, coversSegment n t s e = false) →
      value_for_segment n dl s e = .str "unknown") ∧
    (∀ t, dl.find? (fun t => coversSegment n t s e) = some t →
      (t.2.2 = JVal.null ∨ t.2.2 = JVal.str "" ∨ t.2.2 = JVal.str "missing" ∨
        t.2.2 = JVal.str "null" ∨ t.2.2 = JVal.str "undefined") →
      value_for_segment n dl s e = .str "unknown") := by
  constructor
  · intro hall
    rw [value_for_segment_eq_find]
    have hnone : dl.find? (fun t => coversSegment n t s e) = none :=
      List.find?_eq_none.mpr (fun t ht => by simp [hall t ht])
    rw [hnone]
  · intro t hfind hval
    rw [value_for_segment_eq_find, hfind]
    have hmiss : isMissingDetailValue t.2.2 = true := by
      rcases hval with h | h | h | h | h <;> rw [h] <;> rfl
    simp [hmiss]

/-- witness for C5 (amended) at a one-triple detail list whose value is the
string "missing", covering the whole range [0, 1). -/
theorem value_for_segment_unknown_cases_witness :
    value_for_segment 2 [((0 : ℤ), (1 : ℤ), JVal.str "missing")] 0 1 = JVal.str "unknown" :=
  (value_for_segment_unknown_cases 2 [((0 : ℤ), (1 : ℤ), JVal.str "missing")] 0 1).2
    ((0 : ℤ), (1 : ℤ), JVal.str "missing") rfl (Or.inr (Or.inr (Or.inl rfl)))

/-- counterexample to C5 as stated: a covering triple whose value is the
literal string "absent" is NOT normalized — the assigned attribute value is
"absent", not the sentinel "unknown" (the source only normalizes None, "",
"missing", "null" and "undefined"). -/
theorem value_absent_counterexample :
    (merge_detail_segments [((0 : ℚ), (0 : ℚ)), ((1 : ℚ), (0 : ℚ))]
        [("surface", [((0 : ℤ), (1 : ℤ), JVal.str "absent")])]
        ([0, 0] : List ℝ)).map (·.attributes) = [[("surface", JVal.str "absent")]] ∧
    JVal.str "absent" ≠ JVal.str "unknown" := by
  constructor
  · rfl
  · simp

/-! Elevation profile (services.py lines 53-76). -/

/-- one engine coordinate entry [lon, lat] or [lon, lat, elevation]. -/
abbrev ECoord := ℚ × ℚ × Option ℚ

/-- services.py `create_elevation_profile_from_coordinates`: one
`ElevationPoint` per coordinate (empty when fewer than two coordinates),
with `coord[2] if len(coord) > 2 else 0.0` as the elevation. -/
noncomputable def create_elevation_profile_from_coordinates
    (coordinates : List ECoord) (coordinate_distances : List ℝ) : List ElevationPoint :=
  if coordinates.length < 2 then []
  else
    coordinates.enum.map (fun ic =>
      { distance := coordinate_distances.getD ic.1 0
        elevation := ((ic.2.2.2.getD 0 : ℚ) : ℝ)
        coordinate_index := ic.1 })

/-- C6 (amended): when at least two coordinates are present, the elevation
profile has exactly one `ElevationPoint` per coordinate, carrying the
cumulative distance at that index, the third coordinate component (0.0 when
absent) and the coordinate index; a single-coordinate list produces an empty
profile (see the counterexample). -/
theorem elevation_profile_per_coordinate (coords : List ECoord) (h2 : 2 ≤ coords.length) :
    (create_elevation_profile_from_coordinates coords
      (coordinateDistancesOf (coords.map (fun c => (c.1, c.2.1))))).length = coords.length ∧
    ∀ i, i < coords.length →
      (create_elevation_profile_from_coordinates coords
          (coordinateDistancesOf (coords.map (fun c => (c.1, c.2.1))))).getD i
          { distance := 0, elevation := 0, coordinate_index := 0 } =
        { distance := (coordinateDistancesOf (coords.map (fun c => (c.1, c.2.1)))).getD i 0
          elevation := (((coords.getD i ((0 : ℚ), (0 : ℚ), (none : Option ℚ))).2.2.getD 0 : ℚ) : ℝ)
          coordinate_index := i } := by
  have hnot : ¬ coords.length < 2 := by omega
  unfold create_elevation_profile_from_coordinates
  rw [if_neg hnot]
  have hlen : (coords.enum.map (fun ic : ℕ × ECoord =>
      ({ distance := (coordinateDistancesOf (coords.map (fun c => (c.1, c.2.1)))).getD ic.1 0
         elevation := ((ic.2.2.2.getD 0 : ℚ) : ℝ)
         coordinate_index := ic.1 } : ElevationPoint))).length = coords.length := by
    rw [List.length_map, List.enum_length]
  refine ⟨hlen, ?_⟩
  intro i hi
  have hi2 : i < (coords.enum.map (fun ic : ℕ × ECoord =>
      ({ distance := (coordinateDistancesOf (coords.map (fun c => (c.1, c.2.1)))).getD ic.1 0
         elevation := ((ic.2.2.2.getD 0 : ℚ) : ℝ)
         coordinate_index := ic.1 } : ElevationPoint))).length := by
    rw [hlen]; exact hi
  rw [List.getD_eq_getElem _ _ hi2]
  have hienum : i < coords.enum.length := by rw [List.enum_length]; exact hi
  rw [List.getElem_map]
  rw [List.getElem_enum]
  rw [List.getD_eq_getElem _ _ hi]

/-- witness for C6 (amended) at a two-coordinate list, one entry carrying an
elevation component. -/
theorem elevation_profile_per_coordinate_witness :
    2 ≤ ([((0 : ℚ), (0 : ℚ), (none : Option ℚ)), ((1 : ℚ), (0 : ℚ), some (5 : ℚ))] : List ECoord).length ∧
    (create_elevation_profile_from_coordinates
      [((0 : ℚ), (0 : ℚ), (none : Option ℚ)), ((1 : ℚ), (0 : ℚ), some (5 : ℚ))]
      (coordinateDistancesOf
        (([((0 : ℚ), (0 : ℚ), (none : Option ℚ)), ((1 : ℚ), (0 : ℚ), some (5 : ℚ))] : List ECoord).map
          (fun c => (c.1, c.2.1))))).length = 2 :=
  ⟨by simp,
    (elevation_profile_per_coordinate
      [((0 : ℚ), (0 : ℚ), (none : Option ℚ)), ((1 : ℚ), (0 : ℚ), some (5 : ℚ))] (by simp)).1⟩

/-! Routing orchestration (services.py lines 178-308). -/

/-- configuration object supplied by the external `GraphHopperConfig`
boundary: base URL of the engine, request timeout and default profile. -/
structure GraphHopperConfig where
  base_url : String
  timeout : ℚ
  default_profile : String

/-- Python exceptions distinguished by the two `except` clauses of
`execute_route_request`: `requests.exceptions.RequestException` and every
other `Exception`. -/
inductive PyErr where
  | requestException (msg : String)
  | other (msg : String)

/-- outcome of `requests.post`: either a raised RequestException (connection
failure, timeout, ...) or an HTTP response with a status code, a flag for a
JSON content-type header, and a body that `response.json()` either parses
into a `JVal` or fails on. -/
inductive EngineResult where
  | exc (msg : String)
  | response (status : ℕ) (contentTypeJson : Bool) (body : Except String JVal)

/-- the outbound payload dict built by `execute_route_request`; an absent
"ch.disable" / "custom_model" key is modelled as `false` / `none`. -/
structure Payload where
  points : List (ℚ × ℚ)
  profile : String
  points_encoded : Bool := false
  elevation : Bool
  instructions : Bool := false
  calc_points : Bool := true
  details : Option (List String) := none
  ch_disable : Bool := false
  custom_model : Option (List (String × JVal)) := none

/-- payload construction of services.py lines 190-205: points are
[[lat, lon], [lat, lon]]; a truthy details list adds `details`; a truthy
custom model adds `"ch.disable" = true` and `custom_model`. -/
def buildPayload (start «end» : ℚ × ℚ) (profile : String) (include_elevation : Bool)
    (details : Option (List String)) (custom_model : Option (List (String × JVal))) : Payload :=
  let base : Payload :=
    { points := [(start.2, start.1), («end».2, «end».1)]
      profile := profile
      elevation := include_elevation }
  let withDetails :=
    match details with
    | some l => if l.isEmpty then base else { base with details := some l }
    | none => base
  match custom_model with
  | some cm =>
    if cm.isEmpty then withDetails
    else { withDetails with ch_disable := true, custom_model := some cm }
  | none => withDetails

/-- the four identical failure constructions in `execute_route_request`:
empty geometry, zero metrics, `success=False` and the given error value. -/
def failure_response (profile : String) (err : Option String) : RouteResponse :=
  { geometry := { coordinates := [] }
    metrics := { distance_meters := 0, time_ms := 0 }
    profile := profile
    success := false
    error := err }

/-- Python attribute access `d.get(...)` on a non-dict raises AttributeError. -/
def asObj : JVal → Except PyErr (List (String × JVal))
  | .obj kvs => .ok kvs
  | _ => .error (.other "AttributeError: value has no attribute get")

/-- iterating a non-list JSON value where a list is required raises. -/
def asArr : JVal → Except PyErr (List JVal)
  | .arr xs => .ok xs
  | _ => .error (.other "TypeError: value is not a list")

/-- a numeric field; anything else fails float validation or arithmetic. -/
def asNum : JVal → Except PyErr ℚ
  | .num q => .ok q
  | _ => .error (.other "TypeError: value is not a number")

/-- one engine coordinate entry: an array [lon, lat] or [lon, lat, elevation]
of numbers; shorter or non-numeric entries raise when the coordinates are
consumed. -/
def parseCoord : JVal → Except PyErr ECoord
  | .arr (x :: y :: rest) => do
    let lon ← asNum x
    let lat ← asNum y
    match rest with
    | [] => .ok (lon, lat, none)
    | z :: _ => do
      let elev ← asNum z
      .ok (lon, lat, some elev)
  | _ => .error (.other "IndexError: coordinate entry too short")

/-- one detail triple [start, end, value]: exactly three entries with
integral indices; anything else raises while unpacking or indexing. -/
def parseDetailTriple : JVal → Except PyErr DetailTriple
  | .arr [a, b, v] => do
    let qa ← asNum a
    let qb ← asNum b
    if qa.den = 1 ∧ qb.den = 1 then .ok (qa.num, qb.num, v)
    else .error (.other "TypeError: list indices must be integers")
  | _ => .error (.other "ValueError: cannot unpack detail triple")

/-- the `path["details"]` map: each falsy detail value is tolerated (both
consumers skip falsy lists), a truthy value must be a list of triples. -/
def parseDetails (v : JVal) : Except PyErr DetailsData := do
  let kvs ← asObj v
  kvs.mapM (fun kv =>
    if truthy kv.2 = false then .ok (kv.1, ([] : List DetailTriple))
    else do
      let ts ← asArr kv.2
      let triples ← ts.mapM parseDetailTriple
      .ok (kv.1, triples))

/-- `response.json()` failing on a malformed body raises a decode error. -/
def liftJson (body : Except String JVal) : Except PyErr JVal :=
  match body with
  | .ok v => .ok v
  | .error m => .error (.other ("JSONDecodeError: " ++ m))

/-- truthiness of the optional `details` argument (`if details:`). -/
def detailsTruthy : Option (List String) → Bool
  | some l => !l.isEmpty
  | none => false

/-- the successful `RouteResponse` built at the end of
`execute_route_request` from the parsed path data. -/
noncomputable def success_response (profile : String) (coordinates : List ECoord)
    (include_elevation : Bool) (segments : Option (List RouteSegment))
    (dist time : ℚ) : RouteResponse :=
  let frontend_coordinates := coordinates.map (fun c => (c.1, c.2.1))
  let coordinate_distances := coordinateDistancesOf frontend_coordinates
  { geometry :=
      { coordinates := frontend_coordinates
        elevation_profile :=
          if include_elevation && !coordinates.isEmpty then
            some (create_elevation_profile_from_coordinates coordinates coordinate_distances)
          else none
        coordinate_distances := some coordinate_distances }
    metrics := { distance_meters := dist, time_ms := time }
    profile := profile
    segments := segments
    success := true }

/-- non-200 branch of `execute_route_request` (services.py lines 217-226):
extract an optional `message` field from a JSON body, falling back to
"HTTP <status>", and return a failure response.  Sequencing is written with
explicit binds; each `.error` is a raised Python exception. -/
def non200_response (profile : String) (status : ℕ) (ctJson : Bool)
    (body : Except String JVal) : Except PyErr RouteResponse :=
  (if ctJson then
    liftJson body >>= fun d =>
    asObj d >>= fun kvs =>
    match lookupKV kvs "message" with
    | some .null => .ok none
    | some (.str s) => .ok (some s)
    | some _ => .error (.other "ValidationError: error is not a valid string")
    | none => .ok (some ("HTTP " ++ toString status))
  else .ok (some ("HTTP " ++ toString status))) >>= fun error_msg =>
  .ok (failure_response profile error_msg)

/-- 200 branch of `execute_route_request` (services.py lines 228-291): parse
the body, take `paths[0]`, normalize coordinates, compute distances,
elevation profile and detail segments, and build the success response. -/
noncomputable def parse_200_response (profile : String) (include_elevation : Bool)
    (details : Option (List String)) (body : Except String JVal) :
    Except PyErr RouteResponse :=
  liftJson body >>= fun data =>
  asObj data >>= fun kvs =>
  if truthy ((lookupKV kvs "paths").getD .null) = false then
    .ok (failure_response profile (some "No route found"))
  else
    asArr ((lookupKV kvs "paths").getD .null) >>= fun paths =>
    match paths with
    | [] => .error (.other "IndexError: list index out of range")
    | path :: _ =>
      asObj path >>= fun pathObj =>
      asArr (match (lookupKV pathObj "points").getD (.obj []) with
        | .obj pkvs =>
          if (match lookupKV pkvs "type" with
              | some (.str t) => t == "LineString"
              | _ => false) then
            (lookupKV pkvs "coordinates").getD (.arr [])
          else .arr []
        | .arr xs => .arr xs
        | _ => .arr []) >>= fun coordsJ =>
      coordsJ.mapM parseCoord >>= fun coordinates =>
      (if detailsTruthy details && (lookupKV pathObj "details").isSome then
        parseDetails ((lookupKV pathObj "details").getD .null) >>= fun dd =>
        .ok (some (merge_detail_segments (coordinates.map (fun c => (c.1, c.2.1))) dd
          (coordinateDistancesOf (coordinates.map (fun c => (c.1, c.2.1))))))
      else .ok none) >>= fun segments =>
      (match lookupKV pathObj "distance" with
        | some v => .ok v
        | none => .error (.other "KeyError: distance")) >>= fun distVal =>
      asNum distVal >>= fun dist =>
      (match lookupKV pathObj "time" with
        | some v => .ok v
        | none => .error (.other "KeyError: time")) >>= fun timeVal =>
      asNum timeVal >>= fun time =>
      .ok (success_response profile coordinates include_elevation segments dist time)

/-- try-block of `execute_route_request` (services.py lines 188-291); every
Python exception raised inside it is an `Except.error`.  The behaviour of the
engine is a function from the posted url, payload and timeout to an
`EngineResult`. -/
noncomputable def route_request_body (start «end» : ℚ × ℚ) (profile : String)
    (custom_model : Option (List (String × JVal))) (config : GraphHopperConfig)
    (include_elevation : Bool) (details : Option (List String))
    (engine : String → Payload → ℚ → EngineResult) : Except PyErr RouteResponse :=
  let payload := buildPayload start «end» profile include_elevation details custom_model
  let url := config.base_url.dropRightWhile (· = '/') ++ "/route"
  match engine url payload config.timeout with
  | .exc m => .error (.requestException m)
  | .response status ctJson body =>
    if status ≠ 200 then non200_response profile status ctJson body
    else parse_200_response profile include_elevation details body

/-- services.py `execute_route_request`: the try-block result, with the two
`except` clauses converting a RequestException into a "Connection failed"
failure response and any other exception into an "Unexpected error" one. -/
noncomputable def execute_route_request (start «end» : ℚ × ℚ) (profile : String)
    (custom_model : Option (List (String × JVal))) (config : GraphHopperConfig)
    (include_elevation : Bool) (details : Option (List String))
    (engine : String → Payload → ℚ → EngineResult) : RouteResponse :=
  match route_request_body start «end» profile custom_model config include_elevation details engine with
  | .ok r => r
  | .error (.requestException m) => failure_response profile (some ("Connection failed: " ++ m))
  | .error (.other m) => failure_response profile (some ("Unexpected error: " ++ m))

theorem ebind_ok {ε α β : Type} (a : α) (f : α → Except ε β) : (Except.ok a >>= f) = f a := rfl

theorem ebind_err {ε α β : Type} (e : ε) (f : α → Except ε β) :
    ((Except.error e : Except ε α) >>= f) = .error e := rfl

theorem bind_ok_elim {ε α β : Type} {x : Except ε α} {f : α → Except ε β} {b : β}
    (h : x >>= f = .ok b) : ∃ a, x = .ok a ∧ f a = .ok b := by
  cases x with
  | error e => rw [ebind_err] at h; cases h
  | ok a => exact ⟨a, rfl, by rw [ebind_ok] at h; exact h⟩

theorem append_ne_empty_left (p m : String) (hp : p ≠ "") : p ++ m ≠ "" := by
  intro h
  apply hp
  have hd := congrArg String.data h
  rw [String.data_append] at hd
  have hpd : p.data = [] := (List.append_eq_nil.mp hd).1
  cases p with
  | mk d =>
    cases hpd
    rfl

theorem asObj_ok_inv {v : JVal} {kvs : List (String × JVal)} (h : asObj v = .ok kvs) :
    v = .obj kvs := by
  cases v <;> simp_all [asObj]

/-- engine outcomes that are a non-200 response with a JSON object body
carrying an explicit empty-string or null `message` field: the only failure
paths on which the returned error text is empty or absent. -/
def nonOkEmptyMessage : EngineResult → Bool
  | .response status true (.ok (.obj kvs)) =>
    decide (¬ status = 200) &&
      (match lookupKV kvs "message" with
        | some .null => true
        | some (.str "") => true
        | _ => false)
  | _ => false

/-- engine outcomes that are a 200 response whose JSON object body has a
truthy `paths` entry — the only outcomes that can produce `success=true`. -/
def isOk200WithPath : EngineResult → Bool
  | .response 200 _ (.ok (.obj kvs)) => truthy ((lookupKV kvs "paths").getD .null)
  | _ => false

theorem non200_result (profile : String) (status : ℕ) (ctJson : Bool)
    (body : Except String JVal) (r : RouteResponse)
    (h : non200_response profile status ctJson body = .ok r) :
    r.success = false ∧
    ((∃ s, r.error = some s ∧ s ≠ "") ∨
      (ctJson = true ∧ ∃ kvs, body = .ok (.obj kvs) ∧
        (lookupKV kvs "message" = some .null ∨ lookupKV kvs "message" = some (.str "")))) := by
  unfold non200_response at h
  cases ctJson with
  | false =>
    rw [if_neg (by simp)] at h
    rw [ebind_ok] at h
    have hr : failure_response profile (some ("HTTP " ++ toString status)) = r := Except.ok.inj h
    rw [← hr]
    exact ⟨rfl, Or.inl ⟨_, rfl, append_ne_empty_left "HTTP " _ (by decide)⟩⟩
  | true =>
    rw [if_pos rfl] at h
    obtain ⟨msg, hmsg, h⟩ := bind_ok_elim h
    have hr : failure_response profile msg = r := Except.ok.inj h
    obtain ⟨d, hd, hmsg⟩ := bind_ok_elim hmsg
    obtain ⟨kvs, hkvs, hmsg⟩ := bind_ok_elim hmsg
    have hbody : body = .ok (.obj kvs) := by
      cases body with
      | error e => simp [liftJson] at hd
      | ok v =>
        have hv : v = d := by simpa [liftJson] using hd
        rw [hv, asObj_ok_inv hkvs]
    refine ⟨by rw [← hr]; rfl, ?_⟩
    cases hm : lookupKV kvs "message" with
    | none =>
      rw [hm] at hmsg
      have hme : some ("HTTP " ++ toString status) = msg := Except.ok.inj hmsg
      exact Or.inl ⟨_, by rw [← hr, ← hme]; rfl, append_ne_empty_left "HTTP " _ (by decide)⟩
    | some v =>
      rw [hm] at hmsg
      cases v with
      | null => exact Or.inr ⟨rfl, kvs, hbody, Or.inl hm⟩
      | str s =>
        have hs : some s = msg := Except.ok.inj hmsg
        by_cases hse : s = ""
        · exact Or.inr ⟨rfl, kvs, hbody, Or.inr (by rw [hm, hse])⟩
        · exact Or.inl ⟨s, by rw [← hr, ← hs]; rfl, hse⟩
      | bool b => cases hmsg
      | num q => cases hmsg
      | arr xs => cases hmsg
      | obj o => cases hmsg

theorem parse_200_result (profile : String) (ie : Bool) (det : Option (List String))
    (body : Except String JVal) (r : RouteResponse)
    (h : parse_200_response profile ie det body = .ok r) :
    r = failure_response profile (some "No route found") ∨
    (∃ kvs, body = .ok (.obj kvs) ∧ truthy ((lookupKV kvs "paths").getD .null) = true ∧
      ∃ coords segs d t, r = success_response profile coords ie segs d t) := by
  unfold parse_200_response at h
  obtain ⟨data, hdata, h⟩ := bind_ok_elim h
  obtain ⟨kvs, hkvs, h⟩ := bind_ok_elim h
  have hbody : body = .ok (.obj kvs) := by
    cases body with
    | error e => simp [liftJson] at hdata
    | ok v =>
      have : v = data := by simpa [liftJson] using hdata
      rw [this, asObj_ok_inv hkvs]
  by_cases htr : truthy ((lookupKV kvs "paths").getD .null) = false
  · rw [if_pos htr] at h
    exact Or.inl (Except.ok.inj h).symm
  · rw [if_neg htr] at h
    refine Or.inr ⟨kvs, hbody, by simpa using htr, ?_⟩
    obtain ⟨paths, hpaths, h⟩ := bind_ok_elim h
    cases paths with
    | nil => cases h
    | cons path rest =>
      obtain ⟨pathObj, hpo, h⟩ := bind_ok_elim h
      obtain ⟨coordsJ, hcj, h⟩ := bind_ok_elim h
      obtain ⟨coordinates, hco, h⟩ := bind_ok_elim h
      obtain ⟨segments, hseg, h⟩ := bind_ok_elim h
      obtain ⟨distVal, hdv, h⟩ := bind_ok_elim h
      obtain ⟨dist, hdq, h⟩ := bind_ok_elim h
      obtain ⟨timeVal, htv, h⟩ := bind_ok_elim h
      obtain ⟨time, htq, h⟩ := bind_ok_elim h
      exact ⟨coordinates, segments, dist, time, (Except.ok.inj h).symm⟩

/-- C2 (amended): `execute_route_request` is a total function into
`RouteResponse` — every engine behaviour, including connection failures,
timeouts, non-200 statuses, bodies without paths and malformed path data, is
converted into a structured response, never an escaping exception.  Only a
well-formed 200 response with a truthy `paths` entry can yield
`success=true`.  On every failure path the response has `success=false` and
a non-empty error string, except that a non-200 JSON object body carrying an
explicit `message` of null or the empty string is passed through verbatim
(absent or empty error text). -/
theorem execute_route_request_failure_shape (start «end» : ℚ × ℚ) (profile : String)
    (cm : Option (List (String × JVal))) (config : GraphHopperConfig) (ie : Bool)
    (det : Option (List String)) (engine : String → Payload → ℚ → EngineResult) :
    ((execute_route_request start «end» profile cm config ie det engine).success = true →
      isOk200WithPath (engine (config.base_url.dropRightWhile (· = '/') ++ "/route")
        (buildPayload start «end» profile ie det cm) config.timeout) = true) ∧
    ((execute_route_request start «end» profile cm config ie det engine).success = false →
      nonOkEmptyMessage (engine (config.base_url.dropRightWhile (· = '/') ++ "/route")
        (buildPayload start «end» profile ie det cm) config.timeout) = true ∨
      ∃ s, (execute_route_request start «end» profile cm config ie det engine).error = some s ∧
        s ≠ "") := by
  cases hres : engine (config.base_url.dropRightWhile (· = '/') ++ "/route")
      (buildPayload start «end» profile ie det cm) config.timeout with
  | exc m =>
    have hex : execute_route_request start «end» profile cm config ie det engine
        = failure_response profile (some ("Connection failed: " ++ m)) := by
      have hb : route_request_body start «end» profile cm config ie det engine
          = .error (.requestException m) := by
        simp only [route_request_body]
        rw [hres]
      simp only [execute_route_request]
      rw [hb]
    rw [hex]
    constructor
    · intro h
      simp [failure_response] at h
    · intro _
      exact Or.inr ⟨"Connection failed: " ++ m, rfl,
        append_ne_empty_left "Connection failed: " m (by decide)⟩
  | response status ctJson body =>
    by_cases hstat : status = 200
    · subst hstat
      have hb : route_request_body start «end» profile cm config ie det engine
          = parse_200_response profile ie det body := by
        simp only [route_request_body]
        rw [hres]
        show (if (200 : ℕ) ≠ 200 then non200_response profile 200 ctJson body
          else parse_200_response profile ie det body) = _
        rw [if_neg (by omega : ¬ ((200 : ℕ) ≠ 200))]
      cases hp : parse_200_response profile ie det body with
      | error e =>
        have hex : execute_route_request start «end» profile cm config ie det engine
            = (match (Except.error e : Except PyErr RouteResponse) with
              | .ok r => r
              | .error (.requestException m) =>
                failure_response profile (some ("Connection failed: " ++ m))
              | .error (.other m) =>
                failure_response profile (some ("Unexpected error: " ++ m))) := by
          simp only [execute_route_request]
          rw [hb, hp]
        cases e with
        | requestException m =>
          rw [hex]
          constructor
          · intro h; simp [failure_response] at h
          · intro _
            exact Or.inr ⟨"Connection failed: " ++ m, rfl,
              append_ne_empty_left "Connection failed: " m (by decide)⟩
        | other m =>
          rw [hex]
          constructor
          · intro h; simp [failure_response] at h
          · intro _
            exact Or.inr ⟨"Unexpected error: " ++ m, rfl,
              append_ne_empty_left "Unexpected error: " m (by decide)⟩
      | ok r0 =>
        have hex : execute_route_request start «end» profile cm config ie det engine = r0 := by
          simp only [execute_route_request]
          rw [hb, hp]
        rw [hex]
        rcases parse_200_result profile ie det body r0 hp with hfail |
          ⟨kvs, hbody, htr, coords, segs, dq, tq, hr⟩
        · constructor
          · intro h
            rw [hfail] at h
            simp [failure_response] at h
          · intro _
            exact Or.inr ⟨"No route found", by rw [hfail]; rfl, by decide⟩
        · constructor
          · intro _
            rw [hbody]
            simp [isOk200WithPath, htr]
          · intro h
            rw [hr] at h
            simp [success_response] at h
    · have hb : route_request_body start «end» profile cm config ie det engine
          = non200_response profile status ctJson body := by
        simp only [route_request_body]
        rw [hres]
        show (if status ≠ 200 then non200_response profile status ctJson body
          else parse_200_response profile ie det body) = _
        rw [if_pos hstat]
      cases hn : non200_response profile status ctJson body with
      | error e =>
        have hex : execute_route_request start «end» profile cm config ie det engine
            = (match (Except.error e : Except PyErr RouteResponse) with
              | .ok r => r
              | .error (.requestException m) =>
                failure_response profile (some ("Connection failed: " ++ m))
              | .error (.other m) =>
                failure_response profile (some ("Unexpected error: " ++ m))) := by
          simp only [execute_route_request]
          rw [hb, hn]
        cases e with
        | requestException m =>
          rw [hex]
          constructor
          · intro h; simp [failure_response] at h
          · intro _
            exact Or.inr ⟨"Connection failed: " ++ m, rfl,
              append_ne_empty_left "Connection failed: " m (by decide)⟩
        | other m =>
          rw [hex]
          constructor
          · intro h; simp [failure_response] at h
          · intro _
            exact Or.inr ⟨"Unexpected error: " ++ m, rfl,
              append_ne_empty_left "Unexpected error: " m (by decide)⟩
      | ok r0 =>
        have hex : execute_route_request start «end» profile cm config ie det engine = r0 := by
          simp only [execute_route_request]
          rw [hb, hn]
        rw [hex]
        obtain ⟨hsucc, hdisj⟩ := non200_result profile status ctJson body r0 hn
        constructor
        · intro h
          rw [hsucc] at h
          cases h
        · intro _
          rcases hdisj with ⟨s, hs, hne⟩ | ⟨hct, kvs, hbody, hmsg⟩
          · exact Or.inr ⟨s, hs, hne⟩
          · subst hct
            rw [hbody]
            refine Or.inl ?_
            rcases hmsg with h1 | h1 <;> simp [nonOkEmptyMessage, h1, hstat]

/-- witness for C2 (amended) at a 404 engine response with a plain-text
body. -/
theorem execute_route_request_failure_shape_witness :
    nonOkEmptyMessage ((fun _ _ _ => EngineResult.response 404 false (.error "not json"))
        ("http://gh".dropRightWhile (· = '/') ++ "/route")
        (buildPayload ((0 : ℚ), (0 : ℚ)) ((1 : ℚ), (1 : ℚ)) "bike" true none none)
        (10 : ℚ)) = true ∨
      ∃ s, (execute_route_request ((0 : ℚ), (0 : ℚ)) ((1 : ℚ), (1 : ℚ)) "bike" none
        { base_url := "http://gh", timeout := 10, default_profile := "bike" } true none
        (fun _ _ _ => EngineResult.response 404 false (.error "not json"))).error = some s ∧
        s ≠ "" :=
  (execute_route_request_failure_shape ((0 : ℚ), (0 : ℚ)) ((1 : ℚ), (1 : ℚ)) "bike" none
    { base_url := "http://gh", timeout := 10, default_profile := "bike" } true none
    (fun _ _ _ => EngineResult.response 404 false (.error "not json"))).2 rfl

/-- counterexample to C2 as stated: a 500 response whose JSON body carries an
explicit empty `message` produces `success=false` with an EMPTY error string,
contradicting the claim that every failure path carries a non-empty
human-readable error. -/
theorem execute_route_request_empty_error_counterexample :
    (execute_route_request ((0 : ℚ), (0 : ℚ)) ((1 : ℚ), (1 : ℚ)) "bike" none
      { base_url := "http://gh", timeout := 10, default_profile := "bike" } true none
      (fun _ _ _ => EngineResult.response 500 true
        (.ok (.obj [("message", .str "")])))).success = false ∧
    (execute_route_request ((0 : ℚ), (0 : ℚ)) ((1 : ℚ), (1 : ℚ)) "bike" none
      { base_url := "http://gh", timeout := 10, default_profile := "bike" } true none
      (fun _ _ _ => EngineResult.response 500 true
        (.ok (.obj [("message", .str "")])))).error = some "" :=
  ⟨rfl, rfl⟩

theorem coordinateDistancesOf_nil : coordinateDistancesOf [] = [0] := rfl

theorem coordinateDistancesOf_length_ne_nil (l : List (ℚ × ℚ)) (h : l ≠ []) :
    (coordinateDistancesOf l).length = l.length := by
  unfold coordinateDistancesOf calculate_cumulative_distances
  rw [List.length_cons, cumDistsFrom_length, List.length_map]
  have : l.length ≠ 0 := fun h0 => h (List.length_eq_zero.mp h0)
  omega

/-- C9: `calculate_cumulative_distances` on the empty coordinate list returns
the one-element sequence [0.0]; hence a successful route response built from
an engine path carrying zero coordinates has a coordinate_distances list of
length 1 while its coordinates list has length 0, and for every non-empty
coordinate list the two lengths are equal. -/
theorem cumulative_distances_lengths :
    calculate_cumulative_distances [] = [0] ∧
    (∀ coords : List (ℝ × ℝ), coords ≠ [] →
      (calculate_cumulative_distances coords).length = coords.length) ∧
    (∀ (start «end» : ℚ × ℚ) (profile : String) (cm : Option (List (String × JVal)))
      (config : GraphHopperConfig) (ie : Bool) (det : Option (List String))
      (engine : String → Payload → ℚ → EngineResult),
      (execute_route_request start «end» profile cm config ie det engine).success = true →
      ∃ d, (execute_route_request start «end» profile cm config ie det engine).geometry.coordinate_distances = some d ∧
        ((execute_route_request start «end» profile cm config ie det engine).geometry.coordinates = [] →
          d.length = 1) ∧
        ((execute_route_request start «end» profile cm config ie det engine).geometry.coordinates ≠ [] →
          d.length = (execute_route_request start «end» profile cm config ie det engine).geometry.coordinates.length)) := by
  refine ⟨rfl, ?_, ?_⟩
  · intro coords h
    unfold calculate_cumulative_distances
    rw [List.length_cons, cumDistsFrom_length]
    have : coords.length ≠ 0 := fun h0 => h (List.length_eq_zero.mp h0)
    omega
  · intro start «end» profile cm config ie det engine hsucc
    cases hres : engine (config.base_url.dropRightWhile (· = '/') ++ "/route")
        (buildPayload start «end» profile ie det cm) config.timeout with
    | exc m =>
      have hex : execute_route_request start «end» profile cm config ie det engine
          = failure_response profile (some ("Connection failed: " ++ m)) := by
        have hb : route_request_body start «end» profile cm config ie det engine
            = .error (.requestException m) := by
          simp only [route_request_body]
          rw [hres]
        simp only [execute_route_request]
        rw [hb]
      rw [hex] at hsucc
      cases hsucc
    | response status ctJson body =>
      by_cases hstat : status = 200
      · subst hstat
        have hb : route_request_body start «end» profile cm config ie det engine
            = parse_200_response profile ie det body := by
          simp only [route_request_body]
          rw [hres]
          show (if (200 : ℕ) ≠ 200 then non200_response profile 200 ctJson body
            else parse_200_response profile ie det body) = _
          rw [if_neg (by omega : ¬ ((200 : ℕ) ≠ 200))]
        cases hp : parse_200_response profile ie det body with
        | error e =>
          have hex : execute_route_request start «end» profile cm config ie det engine
              = (match (Except.error e : Except PyErr RouteResponse) with
                | .ok r => r
                | .error (.requestException m) =>
                  failure_response profile (some ("Connection failed: " ++ m))
                | .error (.other m) =>
                  failure_response profile (some ("Unexpected error: " ++ m))) := by
            simp only [execute_route_request]
            rw [hb, hp]
          cases e with
          | requestException m => rw [hex] at hsucc; cases hsucc
          | other m => rw [hex] at hsucc; cases hsucc
        | ok r0 =>
          have hex : execute_route_request start «end» profile cm config ie det engine = r0 := by
            simp only [execute_route_request]
            rw [hb, hp]
          rw [hex] at hsucc ⊢
          rcases parse_200_result profile ie det body r0 hp with hfail |
            ⟨kvs, hbody, htr, coords, segs, dq, tq, hr⟩
          · rw [hfail] at hsucc
            cases hsucc
          · subst hr
            refine ⟨_, rfl, ?_, ?_⟩
            · intro hnil
              have : coords.map (fun c => (c.1, c.2.1)) = [] := hnil
              rw [this]
              rfl
            · intro hne
              exact coordinateDistancesOf_length_ne_nil _ hne
      · have hb : route_request_body start «end» profile cm config ie det engine
            = non200_response profile status ctJson body := by
          simp only [route_request_body]
          rw [hres]
          show (if status ≠ 200 then non200_response profile status ctJson body
            else parse_200_response profile ie det body) = _
          rw [if_pos hstat]
        cases hn : non200_response profile status ctJson body with
        | error e =>
          have hex : execute_route_request start «end» profile cm config ie det engine
              = (match (Except.error e : Except PyErr RouteResponse) with
                | .ok r => r
                | .error (.requestException m) =>
                  failure_response profile (some ("Connection failed: " ++ m))
                | .error (.other m) =>
                  failure_response profile (some ("Unexpected error: " ++ m))) := by
            simp only [execute_route_request]
            rw [hb, hn]
          cases e with
          | requestException m => rw [hex] at hsucc; cases hsucc
          | other m => rw [hex] at hsucc; cases hsucc
        | ok r0 =>
          have hex : execute_route_request start «end» profile cm config ie det engine = r0 := by
            simp only [execute_route_request]
            rw [hb, hn]
          rw [hex] at hsucc
          have := (non200_result profile status ctJson body r0 hn).1
          rw [this] at hsucc
          cases hsucc

/-- witness for C9 at an engine path carrying zero coordinates. -/
theorem cumulative_distances_lengths_witness :
    ∃ d, (execute_route_request ((0 : ℚ), (0 : ℚ)) ((1 : ℚ), (1 : ℚ)) "bike" none
      { base_url := "http://gh", timeout := 10, default_profile := "bike" } true none
      (fun _ _ _ => EngineResult.response 200 true (.ok (.obj [("paths", .arr [.obj
        [("distance", .num 5), ("time", .num 9)]])])))).geometry.coordinate_distances = some d ∧
      d.length = 1 := by
  obtain ⟨d, hd, h1, _⟩ := cumulative_distances_lengths.2.2 ((0 : ℚ), (0 : ℚ)) ((1 : ℚ), (1 : ℚ))
    "bike" none { base_url := "http://gh", timeout := 10, default_profile := "bike" } true none
    (fun _ _ _ => EngineResult.response 200 true (.ok (.obj [("paths", .arr [.obj
      [("distance", .num 5), ("time", .num 9)]])]))) rfl
  exact ⟨d, hd, h1 rfl⟩

/-- counterexample to C6 as stated: elevation requested, the engine returns a
non-empty (single-coordinate) list, yet the elevation profile is EMPTY
rather than containing one point per coordinate, because
`create_elevation_profile_from_coordinates` returns [] for fewer than two
coordinates. -/
theorem elevation_profile_single_coordinate_counterexample :
    (execute_route_request ((0 : ℚ), (0 : ℚ)) ((1 : ℚ), (1 : ℚ)) "bike" none
      { base_url := "http://gh", timeout := 10, default_profile := "bike" } true none
      (fun _ _ _ => EngineResult.response 200 true (.ok (.obj [("paths", .arr [.obj
        [("points", .obj [("type", .str "LineString"),
          ("coordinates", .arr [.arr [.num 1, .num 2]])]),
         ("distance", .num 3), ("time", .num 4)]])])))).success = true ∧
    (execute_route_request ((0 : ℚ), (0 : ℚ)) ((1 : ℚ), (1 : ℚ)) "bike" none
      { base_url := "http://gh", timeout := 10, default_profile := "bike" } true none
      (fun _ _ _ => EngineResult.response 200 true (.ok (.obj [("paths", .arr [.obj
        [("points", .obj [("type", .str "LineString"),
          ("coordinates", .arr [.arr [.num 1, .num 2]])]),
         ("distance", .num 3), ("time", .num 4)]])])))).geometry.coordinates.length = 1 ∧
    (execute_route_request ((0 : ℚ), (0 : ℚ)) ((1 : ℚ), (1 : ℚ)) "bike" none
      { base_url := "http://gh", timeout := 10, default_profile := "bike" } true none
      (fun _ _ _ => EngineResult.response 200 true (.ok (.obj [("paths", .arr [.obj
        [("points", .obj [("type", .str "LineString"),
          ("coordinates", .arr [.arr [.num 1, .num 2]])]),
         ("distance", .num 3), ("time", .num 4)]])])))).geometry.elevation_profile = some [] :=
  ⟨rfl, rfl, rfl⟩

/-! HTTP route handler (routers/routes.py). -/

/-- models.py `RoutePoint`. -/
structure RoutePoint where
  lat : ℚ
  lon : ℚ

/-- models.py `RouteRequest`. -/
structure RouteRequest where
  start : RoutePoint
  «end» : RoutePoint
  profile : Option String := none
  custom_profile_id : Option ℤ := none
  parameters : Option (List (String × JVal)) := none
  include_elevation : Bool := true
  details : Option (List String) := none

/-- Python truthiness of the optional custom profile id
(`request.custom_profile_id and ...`): present and non-zero. -/
def truthyCustomProfileId : Option ℤ → Bool
  | some i => i != 0
  | none => false

/-- Python truthiness of the optional parameter map: present and non-empty. -/
def truthyParameters : Option (List (String × JVal)) → Bool
  | some ps => !ps.isEmpty
  | none => false

/-- routes.py line 20: `profile = request.profile or config.default_profile`
(an empty string is falsy and also falls back to the default). -/
def requestProfile (request : RouteRequest) (config : GraphHopperConfig) : String :=
  match request.profile with
  | some s => if s == "" then config.default_profile else s
  | none => config.default_profile

/-- routes.py line 23: requested details fall back to
`["surface", "smoothness"]` (an empty list is falsy). -/
def requestDetails (request : RouteRequest) : List String :=
  match request.details with
  | some l => if l.isEmpty then ["surface", "smoothness"] else l
  | none => ["surface", "smoothness"]

/-- routes.py `get_route`: the builder is invoked only when both
custom_profile_id and parameters are truthy; a builder failure becomes an
HTTP 400, otherwise the orchestration service is awaited and its response
returned verbatim.  The custom-model builder result is passed as a value
(the builder lives in the external boundary package). -/
noncomputable def get_route (request : RouteRequest) (config : GraphHopperConfig)
    (custom_model_result : Except String (List (String × JVal)))
    (engine : String → Payload → ℚ → EngineResult) : Except (ℕ × String) RouteResponse :=
  if truthyCustomProfileId request.custom_profile_id && truthyParameters request.parameters then
    match custom_model_result with
    | .error e => .error (400, "Custom profile error: " ++ e)
    | .ok cm =>
      .ok (execute_route_request (request.start.lat, request.start.lon)
        (request.«end».lat, request.«end».lon) (requestProfile request config) (some cm) config
        request.include_elevation (some (requestDetails request)) engine)
  else
    .ok (execute_route_request (request.start.lat, request.start.lon)
      (request.«end».lat, request.«end».lon) (requestProfile request config) none config
      request.include_elevation (some (requestDetails request)) engine)

/-- C10: the HTTP route handler builds a custom model only when both
custom_profile_id and parameters are truthy; with a falsy id (absent or 0)
or a falsy parameter map (absent or empty) the request is processed as a
plain request for EVERY builder outcome — no custom_model or ch.disable
field is put into the engine payload, and the 400 InvalidInput path is
unreachable. -/
theorem get_route_plain_when_params_falsy (request : RouteRequest) (config : GraphHopperConfig)
    (custom_model_result : Except String (List (String × JVal)))
    (engine : String → Payload → ℚ → EngineResult)
    (h : (truthyCustomProfileId request.custom_profile_id &&
      truthyParameters request.parameters) = false) :
    get_route request config custom_model_result engine =
      .ok (execute_route_request (request.start.lat, request.start.lon)
        (request.«end».lat, request.«end».lon) (requestProfile request config) none config
        request.include_elevation (some (requestDetails request)) engine) ∧
    (buildPayload (request.start.lat, request.start.lon)
      (request.«end».lat, request.«end».lon) (requestProfile request config)
      request.include_elevation (some (requestDetails request)) none).ch_disable = false ∧
    (buildPayload (request.start.lat, request.start.lon)
      (request.«end».lat, request.«end».lon) (requestProfile request config)
      request.include_elevation (some (requestDetails request)) none).custom_model = none := by
  refine ⟨?_, ?_, ?_⟩
  · unfold get_route
    rw [if_neg (by rw [h]; simp)]
  · by_cases hre : (requestDetails request).isEmpty <;> simp [buildPayload, hre]
  · by_cases hre : (requestDetails request).isEmpty <;> simp [buildPayload, hre]

/-- witness for C10: a request with custom_profile_id 3 and an empty
parameter map is processed as a plain request even when the builder would
fail. -/
theorem get_route_plain_when_params_falsy_witness :
    get_route (RouteRequest.mk ⟨0, 0⟩ ⟨1, 1⟩ none (some 3) (some []) true none)
      { base_url := "http://gh", timeout := 10, default_profile := "bike" }
      (.error "boom")
      (fun _ _ _ => EngineResult.exc "down") =
      .ok (execute_route_request ((0 : ℚ), (0 : ℚ)) ((1 : ℚ), (1 : ℚ)) "bike" none
        { base_url := "http://gh", timeout := 10, default_profile := "bike" } true
        (some ["surface", "smoothness"])
        (fun _ _ _ => EngineResult.exc "down")) :=
  (get_route_plain_when_params_falsy
    (RouteRequest.mk ⟨0, 0⟩ ⟨1, 1⟩ none (some 3) (some []) true none)
    { base_url := "http://gh", timeout := 10, default_profile := "bike" }
    (.error "boom") (fun _ _ _ => EngineResult.exc "down") rfl).1

/-! Schema migration 246677e8a89f
(alembic/versions/246677e8a89f_add_means_and_variances_to_profile_.py). -/

/-- Prior-table row before the migration: the single nullable JSONB
`parameters` column (the columns the migration does not touch are omitted). -/
structure PriorRowV1 where
  parameters : Option (List (String × ℚ))

/-- Prior-table row after the migration: `means` and `variances` JSONB
columns, nullable at the SQL level (the migration tightens them to
non-null). -/
structure PriorRowV2 where
  means : Option (List (String × ℚ))
  variances : Option (List (String × ℚ))

/-- PostgreSQL `(SELECT jsonb_object_agg(key, 0.01) FROM jsonb_each(m))`:
every key of `m` mapped to the constant; an aggregate over zero rows is SQL
NULL. -/
def jsonbObjectAggConst (m : List (String × ℚ)) (c : ℚ) : Option (List (String × ℚ)) :=
  if m.isEmpty then none else some (m.map (fun kv => (kv.1, c)))

/-- the UPDATE of the forward step on one row: rows with non-null
`parameters` copy it into `means` and aggregate every key to 0.01 in
`variances`; rows with null `parameters` are untouched (both new columns
stay NULL). -/
def migrateRowV1 (r : PriorRowV1) : PriorRowV2 :=
  match r.parameters with
  | some p => { means := some p, variances := jsonbObjectAggConst p (1 / 100) }
  | none => { means := none, variances := none }

/-- the UPDATE of the backward step on one row: copy `means` back into
`parameters` (rows with null `means` stay null). -/
def restoreRowV2 (r : PriorRowV2) : PriorRowV1 :=
  match r.means with
  | some m => { parameters := some m }
  | none => { parameters := none }

/-- forward migration step (`upgrade`): add `means` and `variances`
(nullable), backfill, set both columns NOT NULL (failing when any row still
holds NULL), drop `parameters`. -/
def migrationUpgrade (t : List PriorRowV1) : Except String (List PriorRowV2) :=
  let migrated := t.map migrateRowV1
  if migrated.any (fun r => r.means.isNone) then
    .error "NOT NULL violation: means"
  else if migrated.any (fun r => r.variances.isNone) then
    .error "NOT NULL violation: variances"
  else .ok migrated

/-- backward migration step (`downgrade`): re-add `parameters` (nullable),
copy `means` back into it, set NOT NULL, drop `means` and `variances` — the
variance data is discarded by design. -/
def migrationDowngrade (t : List PriorRowV2) : Except String (List PriorRowV1) :=
  let restored := t.map restoreRowV2
  if restored.any (fun r => r.parameters.isNone) then
    .error "NOT NULL violation: parameters"
  else .ok restored

/-- C8 (amended): for every starting state of the Prior table in which every
row has a non-null and NON-EMPTY parameters map, upgrade followed by
downgrade restores the parameters column row for row; the forward step
copies parameters into means and sets every key of variances to 0.01, and
the backward step discards the variances data.  (For an empty — though
non-null — parameters map the forward step itself fails; see the
counterexample.) -/
theorem migration_roundtrip (t : List PriorRowV1)
    (h : ∀ r ∈ t, ∃ p, r.parameters = some p ∧ p ≠ []) :
    ∃ t2, migrationUpgrade t = .ok t2 ∧
      t2.map (·.means) = t.map (·.parameters) ∧
      t2.map (·.variances) =
        t.map (fun r => r.parameters.map (fun p => p.map (fun kv => (kv.1, (1 : ℚ) / 100)))) ∧
      migrationDowngrade t2 = .ok t := by
  have hrow : ∀ r ∈ t, migrateRowV1 r =
      ({ means := r.parameters,
         variances := r.parameters.map (fun p => p.map (fun kv => (kv.1, (1 : ℚ) / 100))) } : PriorRowV2) := by
    intro r hr
    obtain ⟨p, hp, hne⟩ := h r hr
    unfold migrateRowV1
    rw [hp]
    simp only [Option.map_some']
    unfold jsonbObjectAggConst
    rw [if_neg (by simpa using hne)]
  have hnomeans : ¬ ((t.map migrateRowV1).any (fun r => r.means.isNone) = true) := by
    intro hany
    rw [List.any_eq_true] at hany
    obtain ⟨r2, hr2, hnone⟩ := hany
    obtain ⟨r, hr, hfr⟩ := List.mem_map.mp hr2
    rw [hrow r hr] at hfr
    obtain ⟨p, hp, hne⟩ := h r hr
    rw [← hfr] at hnone
    simp [hp] at hnone
  have hnovars : ¬ ((t.map migrateRowV1).any (fun r => r.variances.isNone) = true) := by
    intro hany
    rw [List.any_eq_true] at hany
    obtain ⟨r2, hr2, hnone⟩ := hany
    obtain ⟨r, hr, hfr⟩ := List.mem_map.mp hr2
    rw [hrow r hr] at hfr
    obtain ⟨p, hp, hne⟩ := h r hr
    rw [← hfr] at hnone
    simp [hp] at hnone
  refine ⟨t.map migrateRowV1, ?_, ?_, ?_, ?_⟩
  · unfold migrationUpgrade
    rw [if_neg hnomeans, if_neg hnovars]
  · rw [List.map_map]
    apply List.map_congr_left
    intro r hr
    simp only [Function.comp_apply]
    rw [hrow r hr]
  · rw [List.map_map]
    apply List.map_congr_left
    intro r hr
    simp only [Function.comp_apply]
    rw [hrow r hr]
  · unfold migrationDowngrade
    have hback : (t.map migrateRowV1).map restoreRowV2 = t := by
      rw [List.map_map]
      have hcomp : ∀ r ∈ t, (restoreRowV2 ∘ migrateRowV1) r = r := by
        intro r hr
        obtain ⟨p, hp, _⟩ := h r hr
        simp only [Function.comp_apply]
        unfold migrateRowV1 restoreRowV2
        rw [hp]
        show ({ parameters := some p } : PriorRowV1) = r
        rw [← hp]
      rw [List.map_congr_left hcomp]
      simp
    rw [hback]
    rw [if_neg]
    intro hany
    rw [List.any_eq_true] at hany
    obtain ⟨r, hr, hnone⟩ := hany
    obtain ⟨p, hp, _⟩ := h r hr
    simp [hp] at hnone

/-- witness for C8 (amended) at a one-row table with one parameter. -/
theorem migration_roundtrip_witness :
    ∃ t2, migrationUpgrade [PriorRowV1.mk (some [("a", 2)])] = .ok t2 ∧
      migrationDowngrade t2 = .ok [PriorRowV1.mk (some [("a", 2)])] := by
  obtain ⟨t2, h1, _, _, h4⟩ := migration_roundtrip [PriorRowV1.mk (some [("a", 2)])]
    (by intro r hr
        simp only [List.mem_singleton] at hr
        subst hr
        exact ⟨[("a", 2)], rfl, by simp⟩)
  exact ⟨t2, h1, h4⟩

/-- counterexample to C8 as stated: a row whose parameters map is non-null
but EMPTY makes the forward step fail — `jsonb_object_agg` over zero keys is
SQL NULL, so the variances column cannot be tightened to NOT NULL and the
upgrade raises instead of completing (hence no roundtrip exists). -/
theorem migration_upgrade_empty_params_counterexample :
    (∀ r ∈ [PriorRowV1.mk (some [])], r.parameters ≠ none) ∧
    migrationUpgrade [PriorRowV1.mk (some [])] = .error "NOT NULL violation: variances" := by
  constructor
  · intro r hr
    simp only [List.mem_singleton] at hr
    subst hr
    simp
  · rfl

/-! CLI: manage prior configuration (scripts/add_prior_config.py, insert
mode) against the entity schema of src/r2r_backend/db/models.py. -/

/-- a `GraphHopperCustomProfile` row, reduced to the columns the script
reads: id, name and the declared parameter-name list. -/
structure GHProfileRow where
  id : ℤ
  name : String
  parameters : List String

/-- the column names declared on `ProfilePrior` in
src/r2r_backend/db/models.py: after migration 246677e8a89f priors store
`means` and `variances` — there is NO `parameters` column. -/
def profilePriorColumns : List String :=
  ["id", "profile_id", "means", "variances", "training_metadata", "version", "is_active",
    "created_at"]

/-- an existing `ProfilePrior` row (post-migration schema). -/
structure ProfilePriorRow where
  id : ℤ
  profile_id : ℤ
  means : List (String × ℚ)
  variances : List (String × ℚ)
  version : ℤ
  is_active : Bool

/-- a parsed prior configuration document (the YAML file of insert mode),
already shaped: the script separately validates presence and types of the
three required fields, which the typed record renders unrepresentable. -/
structure PriorConfig where
  custom_profile_id : ℤ
  version : ℤ
  parameters : List (String × ℚ)
  training_metadata : Option JVal := none

/-- the per-parameter loop of `validate_prior_config`: each name must be
non-empty after stripping (`not param_name.strip()` holds exactly when every
character is whitespace), each value strictly positive. -/
def validate_params : List (String × ℚ) → Except String Unit
  | [] => .ok ()
  | kv :: rest =>
    if kv.1.toList.all (·.isWhitespace) then .error "Parameter names must be non-empty strings"
    else if kv.2 ≤ 0 then
      .error ("Parameter " ++ kv.1 ++ " must have a positive value")
    else validate_params rest

/-- scripts/add_prior_config.py `validate_prior_config`: positive version,
non-empty parameter map, valid names and values. -/
def validate_prior_config (config : PriorConfig) : Except String Unit :=
  if config.version < 1 then .error "version must be a positive integer"
  else if config.parameters.isEmpty then .error "parameters dictionary cannot be empty"
  else validate_params config.parameters

/-- the database state the insert mode touches. -/
structure PriorDB where
  profiles : List GHProfileRow
  priors : List ProfilePriorRow

/-- the SQLAlchemy declarative constructor: it rejects any keyword argument
that is not a mapped column with a TypeError. -/
def profilePriorCtorCheck (kwargs : List String) : Except String Unit :=
  match kwargs.find? (fun k => !(profilePriorColumns.contains k)) with
  | some k => .error ("TypeError: " ++ k ++ " is an invalid keyword argument for ProfilePrior")
  | none => .ok ()

/-- scripts/add_prior_config.py `insert_prior_config` after loading the
YAML: validate the configuration, load the referenced profile, require the
parameter-name sets to match, reject an existing (profile, version) prior,
then construct `ProfilePrior(profile_id=..., parameters=...,
training_metadata=..., version=..., is_active=True)` — the keyword list the
source passes at line 233.  The mapped class has no `parameters` column, so
the constructor raises; and even past it the never-assigned non-null
`means`/`variances` columns would fail at commit, so no success value
exists. -/
def insert_prior_config (config : PriorConfig) (db : PriorDB) : Except String (PriorDB × ℤ) :=
  validate_prior_config config >>= fun _ =>
  (match db.profiles.find? (fun p => p.id == config.custom_profile_id) with
    | none => .error ("Custom profile with ID " ++ toString config.custom_profile_id ++ " not found")
    | some p => .ok p) >>= fun profile =>
  (if profile.parameters.toFinset = (config.parameters.map (·.1)).toFinset then .ok ()
    else .error ("Parameter set mismatch for profile " ++ profile.name)) >>= fun _ =>
  (if db.priors.any (fun r => r.profile_id == config.custom_profile_id &&
      r.version == config.version) then
    .error ("Prior version " ++ toString config.version ++ " already exists for profile " ++
      toString config.custom_profile_id)
    else .ok ()) >>= fun _ =>
  profilePriorCtorCheck ["profile_id", "parameters", "training_metadata", "version",
    "is_active"] >>= fun _ =>
  .error "IntegrityError: null value in column means violates not-null constraint"

/-- C3 (code bug): a configuration that passes every validation, references
an existing profile with the exact declared parameter set, and collides with
no existing (profile, version) prior still FAILS — the script constructs
`ProfilePrior` with a `parameters` keyword although the mapped class (after
migration 246677e8a89f) only has `means` and `variances` columns, so a
TypeError is raised, no row is inserted and no success is reported. -/
theorem insert_prior_config_valid_config_raises :
    validate_prior_config (PriorConfig.mk 1 1 [("a", 1)] none) = .ok () ∧
    ((PriorDB.mk [GHProfileRow.mk 1 "gravel-profile" ["a"]] []).profiles.find?
      (fun p => p.id == (1 : ℤ))).isSome = true ∧
    ((PriorDB.mk [GHProfileRow.mk 1 "gravel-profile" ["a"]] []).priors.any
      (fun r => r.profile_id == (1 : ℤ) && r.version == (1 : ℤ))) = false ∧
    insert_prior_config (PriorConfig.mk 1 1 [("a", 1)] none)
        (PriorDB.mk [GHProfileRow.mk 1 "gravel-profile" ["a"]] []) =
      .error "TypeError: parameters is an invalid keyword argument for ProfilePrior" := by
  refine ⟨rfl, rfl, rfl, rfl⟩

/-! CLI: seed learned parameters from priors
(scripts/transfer_priors_to_learned_params.py). -/

/-- hexadecimal digit test. -/
def isHexChar (c : Char) : Bool :=
  c.isDigit || ('a' ≤ c && c ≤ 'f') || ('A' ≤ c && c ≤ 'F')

/-- Modelled from the spec: the script validates the user identifier with
`uuid.UUID` from the Python standard library, which is not part of this
repository; §4.11 requires "a syntactically well-formed UUID", modelled here
as the canonical 8-4-4-4-12 hyphenated hexadecimal form. -/
def is_valid_uuid (s : String) : Bool :=
  s.toList.length == 36 &&
  (List.range 36).all (fun i =>
    if i = 8 || i = 13 || i = 18 || i = 23 then s.toList.getD i ' ' == '-'
    else isHexChar (s.toList.getD i ' '))

/-- a `UserProfile` row, reduced to the columns the script touches;
uuid primary keys are modelled as a counter. -/
structure UserProfileRow where
  id : ℕ
  user_id : String
  profile_id : ℤ
  custom_name : String
  total_ratings : ℤ

/-- a `LearnedParameters` row, reduced to the columns the script writes. -/
structure LearnedParamsRow where
  id : ℕ
  user_profile_id : ℕ
  parameters : List (String × ℚ)
  is_prior : Bool
  rating_count_at_generation : ℤ

/-- the database state the transfer script touches, with fresh-id counters
standing in for generated primary keys. -/
structure TransferDB where
  profiles : List GHProfileRow
  priors : List ProfilePriorRow
  user_profiles : List UserProfileRow
  learned : List LearnedParamsRow
  next_user_profile_id : ℕ
  next_learned_id : ℕ

/-- scripts/transfer_priors_to_learned_params.py
`get_or_create_user_profile`: require the custom profile to exist, reuse an
existing (user_id, profile_id) row, otherwise create one (flushed, so its id
is available before commit). -/
def get_or_create_user_profile (db : TransferDB) (user_id : String) (profile_id : ℤ) :
    Except String (TransferDB × UserProfileRow) :=
  match db.profiles.find? (fun p => p.id == profile_id) with
  | none => .error ("Custom profile with ID " ++ toString profile_id ++ " not found")
  | some custom_profile =>
    match db.user_profiles.find? (fun up => up.user_id == user_id &&
        up.profile_id == profile_id) with
    | some user_profile => .ok (db, user_profile)
    | none =>
      let user_profile : UserProfileRow :=
        { id := db.next_user_profile_id
          user_id := user_id
          profile_id := profile_id
          custom_name := "Profile for " ++ custom_profile.name
          total_ratings := 0 }
      .ok ({ db with
        user_profiles := db.user_profiles ++ [user_profile]
        next_user_profile_id := db.next_user_profile_id + 1 }, user_profile)

/-- the per-prior loop of `transfer_prior_to_learned_params`: a missing
prior is skipped; an existing `is_prior` learned row for the user profile is
skipped (duplicate prevention); otherwise a new learned-parameters row is
created from the prior means. -/
def transferLoop (user_id : String) (db : TransferDB) :
    List ℤ → List ℕ → Except String (TransferDB × List ℕ)
  | [], acc => .ok (db, acc.reverse)
  | prior_id :: rest, acc =>
    match db.priors.find? (fun r => r.id == prior_id) with
    | none => transferLoop user_id db rest acc
    | some prior =>
      match get_or_create_user_profile db user_id prior.profile_id with
      | .error e => .error e
      | .ok (db1, user_profile) =>
        match db1.learned.find? (fun lp => lp.user_profile_id == user_profile.id &&
            lp.is_prior) with
        | some _ => transferLoop user_id db1 rest acc
        | none =>
          let lp : LearnedParamsRow :=
            { id := db1.next_learned_id
              user_profile_id := user_profile.id
              parameters := prior.means
              is_prior := true
              rating_count_at_generation := 0 }
          transferLoop user_id ({ db1 with
            learned := db1.learned ++ [lp]
            next_learned_id := db1.next_learned_id + 1 }) rest (lp.id :: acc)

/-- scripts/transfer_priors_to_learned_params.py
`transfer_prior_to_learned_params`: validate the user id, require at least
one prior id, process the ids in order and commit once at the end; an error
rolls the whole transaction back (the caller keeps the original state). -/
def transfer_prior_to_learned_params (user_id : String) (prior_ids : List ℤ)
    (db : TransferDB) : Except String (TransferDB × List ℕ) :=
  if is_valid_uuid user_id = false then .error ("Invalid UUID format: " ++ user_id)
  else if prior_ids.isEmpty then .error "At least one prior_id must be specified"
  else transferLoop user_id db prior_ids []

theorem filter_length_le_one_unique {α : Type} (l : List α) (p : α → Bool)
    (h : (l.filter p).length ≤ 1) {a b : α} (ha : a ∈ l) (hpa : p a = true)
    (hb : b ∈ l) (hpb : p b = true) : a = b := by
  have haf : a ∈ l.filter p := List.mem_filter.mpr ⟨ha, hpa⟩
  have hbf : b ∈ l.filter p := List.mem_filter.mpr ⟨hb, hpb⟩
  match hf : l.filter p with
  | [] => rw [hf] at haf; cases haf
  | [x] =>
    rw [hf] at haf hbf
    simp only [List.mem_singleton] at haf hbf
    rw [haf, hbf]
  | x :: y :: t => rw [hf] at h; simp at h

theorem filter_length_eq_one {α : Type} (l : List α) (p : α → Bool)
    (hle : (l.filter p).length ≤ 1) {a : α} (ha : a ∈ l) (hpa : p a = true) :
    (l.filter p).length = 1 := by
  have haf : a ∈ l.filter p := List.mem_filter.mpr ⟨ha, hpa⟩
  have hne : l.filter p ≠ [] := List.ne_nil_of_mem haf
  have hpos : 0 < (l.filter p).length := List.length_pos.mpr hne
  omega

theorem transfer_single (u : String) (pid : ℤ) (db : TransferDB)
    (hu : is_valid_uuid u = true) :
    transfer_prior_to_learned_params u [pid] db = transferLoop u db [pid] [] := by
  unfold transfer_prior_to_learned_params
  rw [hu]
  simp

/-- C7: the prior transfer is idempotent per user — from a well-formed state
(unique (user, profile) pairs, fresh id counter, at most one prior-flagged
learned row per user profile), running the transfer twice with the same user
id and prior id leaves exactly one user-profile row for that
(user, profile) pair and at most one is_prior=true learned row for it, and
the second run returns zero newly created learned-parameter ids and leaves
the state unchanged (the existing user profile is reused and the
prior-flagged row causes a skip). -/
theorem transfer_prior_idempotent (u : String) (pid : ℤ) (db : TransferDB)
    (prior : ProfilePriorRow)
    (hu : is_valid_uuid u = true)
    (hprior : db.priors.find? (fun r => r.id == pid) = some prior)
    (hprof : (db.profiles.find? (fun p => p.id == prior.profile_id)).isSome = true)
    (hup1 : (db.user_profiles.filter (fun up => up.user_id == u &&
      up.profile_id == prior.profile_id)).length ≤ 1)
    (hlfresh : ∀ lp ∈ db.learned, lp.user_profile_id < db.next_user_profile_id)
    (hlp1 : ∀ n : ℕ, (db.learned.filter (fun lp => lp.user_profile_id == n &&
      lp.is_prior)).length ≤ 1) :
    ∃ db1 created1 db2,
      transfer_prior_to_learned_params u [pid] db = .ok (db1, created1) ∧
      transfer_prior_to_learned_params u [pid] db1 = .ok (db2, []) ∧
      db2 = db1 ∧
      (db2.user_profiles.filter (fun up => up.user_id == u &&
        up.profile_id == prior.profile_id)).length = 1 ∧
      ∀ up ∈ db2.user_profiles, up.user_id = u → up.profile_id = prior.profile_id →
        (db2.learned.filter (fun lp => lp.user_profile_id == up.id &&
          lp.is_prior)).length ≤ 1 := by
  obtain ⟨cp, hcp⟩ := Option.isSome_iff_exists.mp hprof
  cases hfind : db.user_profiles.find? (fun up => up.user_id == u &&
      up.profile_id == prior.profile_id) with
  | some up0 =>
    have hgoc : get_or_create_user_profile db u prior.profile_id = .ok (db, up0) := by
      unfold get_or_create_user_profile
      rw [hcp, hfind]
    have hup0mem : up0 ∈ db.user_profiles := List.mem_of_find?_eq_some hfind
    have hup0p : (up0.user_id == u && up0.profile_id == prior.profile_id) = true := by
      simpa using List.find?_some hfind
    cases hlf : db.learned.find? (fun lp => lp.user_profile_id == up0.id && lp.is_prior) with
    | some lp0 =>
      have hrun : transferLoop u db [pid] [] = .ok (db, []) := by
        simp only [transferLoop, hprior, hgoc, hlf, List.reverse_nil]
      refine ⟨db, [], db, ?_, ?_, rfl, ?_, ?_⟩
      · rw [transfer_single u pid db hu, hrun]
      · rw [transfer_single u pid db hu, hrun]
      · exact filter_length_eq_one _ _ hup1 hup0mem hup0p
      · intro up _ _ _
        exact hlp1 up.id
    | none =>
      have hrun1 : transferLoop u db [pid] [] =
          .ok ({ db with
            learned := db.learned ++
              [⟨db.next_learned_id, up0.id, prior.means, true, 0⟩]
            next_learned_id := db.next_learned_id + 1 }, [db.next_learned_id]) := by
        simp only [transferLoop, hprior, hgoc, hlf, List.reverse_cons, List.reverse_nil,
          List.nil_append]
      set lp : LearnedParamsRow := ⟨db.next_learned_id, up0.id, prior.means, true, 0⟩ with hlp
      set db1 : TransferDB := { db with
        learned := db.learned ++ [lp]
        next_learned_id := db.next_learned_id + 1 } with hdb1
      have hprior2 : db1.priors.find? (fun r => r.id == pid) = some prior := hprior
      have hgoc2 : get_or_create_user_profile db1 u prior.profile_id = .ok (db1, up0) := by
        unfold get_or_create_user_profile
        rw [show db1.profiles = db.profiles from rfl, hcp]
        rw [show db1.user_profiles = db.user_profiles from rfl, hfind]
      have hlf2 : db1.learned.find? (fun l => l.user_profile_id == up0.id && l.is_prior) =
          some lp := by
        show (db.learned ++ [lp]).find? _ = some lp
        rw [List.find?_append, hlf]
        simp [hlp]
      have hrun2 : transferLoop u db1 [pid] [] = .ok (db1, []) := by
        simp only [transferLoop, hprior2, hgoc2, hlf2, List.reverse_nil]
      refine ⟨db1, [db.next_learned_id], db1, ?_, ?_, rfl, ?_, ?_⟩
      · rw [transfer_single u pid db hu, hrun1]
      · rw [transfer_single u pid db1 hu, hrun2]
      · show (db.user_profiles.filter _).length = 1
        exact filter_length_eq_one _ _ hup1 hup0mem hup0p
      · intro up hup hupu hupp
        have hupmem : up ∈ db.user_profiles := hup
        have huppred : (up.user_id == u && up.profile_id == prior.profile_id) = true := by
          simp [hupu, hupp]
        have hupeq : up = up0 :=
          filter_length_le_one_unique _ _ hup1 hupmem huppred hup0mem hup0p
        show ((db.learned ++ [lp]).filter _).length ≤ 1
        rw [List.filter_append]
        have hnil : db.learned.filter (fun l => l.user_profile_id == up.id && l.is_prior) =
            [] := by
          apply List.filter_eq_nil_iff.mpr
          intro l hl
          have := List.find?_eq_none.mp hlf l hl
          rw [hupeq]
          exact fun hc => this hc
        rw [hnil]
        simp [hlp, hupeq]
  | none =>
    set up : UserProfileRow :=
      ⟨db.next_user_profile_id, u, prior.profile_id, "Profile for " ++ cp.name, 0⟩ with hupdef
    set dbB : TransferDB := { db with
      user_profiles := db.user_profiles ++ [up]
      next_user_profile_id := db.next_user_profile_id + 1 } with hdbB
    have hgoc : get_or_create_user_profile db u prior.profile_id = .ok (dbB, up) := by
      unfold get_or_create_user_profile
      rw [hcp, hfind]
    have hlfB : dbB.learned.find? (fun l => l.user_profile_id == up.id && l.is_prior) =
        none := by
      show db.learned.find? _ = none
      apply List.find?_eq_none.mpr
      intro l hl hcontra
      rw [Bool.and_eq_true] at hcontra
      have hlt := hlfresh l hl
      have heq : l.user_profile_id = up.id := eq_of_beq hcontra.1
      have hupid : up.id = db.next_user_profile_id := by rw [hupdef]
      omega
    set lp : LearnedParamsRow := ⟨db.next_learned_id, up.id, prior.means, true, 0⟩ with hlp
    set db1 : TransferDB := { dbB with
      learned := dbB.learned ++ [lp]
      next_learned_id := dbB.next_learned_id + 1 } with hdb1
    have hrun1 : transferLoop u db [pid] [] = .ok (db1, [db.next_learned_id]) := by
      simp only [transferLoop, hprior, hgoc, hlfB, List.reverse_cons, List.reverse_nil,
        List.nil_append]
    have hprior2 : db1.priors.find? (fun r => r.id == pid) = some prior := hprior
    have hfind2 : db1.user_profiles.find? (fun v => v.user_id == u &&
        v.profile_id == prior.profile_id) = some up := by
      show (db.user_profiles ++ [up]).find? _ = some up
      rw [List.find?_append, hfind]
      simp [hupdef]
    have hgoc2 : get_or_create_user_profile db1 u prior.profile_id = .ok (db1, up) := by
      unfold get_or_create_user_profile
      rw [show db1.profiles = db.profiles from rfl, hcp, hfind2]
    have hlf2 : db1.learned.find? (fun l => l.user_profile_id == up.id && l.is_prior) =
        some lp := by
      show (db.learned ++ [lp]).find? _ = some lp
      rw [List.find?_append]
      rw [show db.learned.find? (fun l => l.user_profile_id == up.id && l.is_prior) = none
        from hlfB]
      simp [hlp]
    have hrun2 : transferLoop u db1 [pid] [] = .ok (db1, []) := by
      simp only [transferLoop, hprior2, hgoc2, hlf2, List.reverse_nil]
    have hfilnil : db.user_profiles.filter (fun v => v.user_id == u &&
        v.profile_id == prior.profile_id) = [] := by
      apply List.filter_eq_nil_iff.mpr
      intro v hv hcontra
      exact List.find?_eq_none.mp hfind v hv hcontra
    refine ⟨db1, [db.next_learned_id], db1, ?_, ?_, rfl, ?_, ?_⟩
    · rw [transfer_single u pid db hu, hrun1]
    · rw [transfer_single u pid db1 hu, hrun2]
    · show ((db.user_profiles ++ [up]).filter _).length = 1
      rw [List.filter_append, hfilnil]
      simp [hupdef]
    · intro v hv hvu hvp
      have hvmem : v ∈ db.user_profiles ++ [up] := hv
      rcases List.mem_append.mp hvmem with hvdb | hvup
      · exfalso
        have : (v.user_id == u && v.profile_id == prior.profile_id) = true := by
          simp [hvu, hvp]
        exact List.find?_eq_none.mp hfind v hvdb this
      · have hveq : v = up := by simpa using hvup
        show ((db.learned ++ [lp]).filter _).length ≤ 1
        rw [List.filter_append]
        have hnil : db.learned.filter (fun l => l.user_profile_id == v.id && l.is_prior) =
            [] := by
          apply List.filter_eq_nil_iff.mpr
          intro l hl
          rw [hveq]
          exact List.find?_eq_none.mp hlfB l hl
        rw [hnil]
        simp [hlp, hveq]

/-- witness for C7 at a one-profile, one-prior, otherwise empty database. -/
theorem transfer_prior_idempotent_witness :
    ∃ db1 created1 db2,
      transfer_prior_to_learned_params "123e4567-e89b-12d3-a456-426614174000" [1]
        (TransferDB.mk [GHProfileRow.mk 1 "gravel-profile" ["a"]]
          [ProfilePriorRow.mk 1 1 [("a", 1)] [("a", 1 / 100)] 1 true] [] [] 0 0) =
        .ok (db1, created1) ∧
      transfer_prior_to_learned_params "123e4567-e89b-12d3-a456-426614174000" [1] db1 =
        .ok (db2, []) ∧
      db2 = db1 :=
  match transfer_prior_idempotent "123e4567-e89b-12d3-a456-426614174000" 1
    (TransferDB.mk [GHProfileRow.mk 1 "gravel-profile" ["a"]]
      [ProfilePriorRow.mk 1 1 [("a", 1)] [("a", 1 / 100)] 1 true] [] [] 0 0)
    (ProfilePriorRow.mk 1 1 [("a", 1)] [("a", 1 / 100)] 1 true)
    (by decide) rfl rfl (by decide) (by intro lp hlp; cases hlp)
    (by intro n; simp) with
  | ⟨db1, created1, db2, h1, h2, h3, _, _⟩ => ⟨db1, created1, db2, h1, h2, h3⟩

end R2R
